import Mathlib

set_option maxHeartbeats 1000000

/-! Shallow embedding of the roguelike-tutorial source (src/src/main.rs) and
proofs of the specification claims about it.  Rendering, raw input and the
point-in-view computation are external collaborators; they are embedded as
oracle parameters (a visibility predicate, a seed-driven random source, an
abstract basic-AI handler) exactly where the source consults them. -/

namespace Roguelike

/-- Colors of the tcod palette, by name.  Their RGB payloads play no role in
the game logic, so colors are embedded as the enumeration of named constants
the source mentions. -/
inductive Color where
  | white | red | green | lightGreen | lightYellow | lightViolet | violet
  | orange | lightBlue | darkRed | yellow | lightCyan | sky
  | desaturatedGreen | darkerGreen | darkerOrange | lightGrey
  deriving DecidableEq

/-- Tile of the map grid (struct Tile). -/
structure Tile where
  blocked : Bool
  explored : Bool
  block_sight : Bool
  deriving DecidableEq

/-- Rectangular room (struct Rect). -/
structure Rect where
  x1 : Int
  y1 : Int
  x2 : Int
  y2 : Int
  deriving DecidableEq

/-- Rect::new. -/
def Rect.new (x y w h : Int) : Rect :=
  { x1 := x, y1 := y, x2 := x + w, y2 := y + h }

/-- Rect::center; i32 division truncates toward zero, which is Int.tdiv. -/
def Rect.center (r : Rect) : Int × Int :=
  ((r.x1 + r.x2).tdiv 2, (r.y1 + r.y2).tdiv 2)

/-- Rect::intersect: inclusive boundary test on both axes. -/
def Rect.intersect (r other : Rect) : Bool :=
  r.x1 ≤ other.x2 && r.x2 ≥ other.x1 && r.y1 ≤ other.y2 && r.y2 ≥ other.y1

def MSG_HEIGHT : Nat := 6

def MAX_ROOMS : Nat := 30

def HEAL_AMOUNT : Int := 40

def LIGHTNING_DAMAGE : Int := 40

def LIGHTNING_RANGE : Int := 5

def CONFUSE_NUM_TURNS : Int := 10

/-- Equipment capability (struct Equipment). -/
structure Equipment where
  slot : String
  is_equipped : Bool
  power_bonus : Int
  defense_bonus : Int
  max_hp_bonus : Int
  deriving DecidableEq

/-- Death-outcome tag (enum DeathCallback). -/
inductive DeathCallback where
  | Monster
  | Player
  deriving DecidableEq

/-- Fighter capability (struct Fighter). -/
structure Fighter where
  base_max_hp : Int
  hp : Int
  base_defense : Int
  base_power : Int
  xp : Int
  death : Option DeathCallback
  deriving DecidableEq

/-- Fighter::heal: heal by the given amount, without going over base_max_hp. -/
def Fighter.heal (f : Fighter) (amount : Int) : Fighter :=
  let hp := f.hp + amount
  { f with hp := if hp > f.base_max_hp then f.base_max_hp else hp }

/-- AI variant (enum MonsterAIType). -/
inductive MonsterAIType where
  | Basic
  | Confused (num_turns : Int)
  deriving DecidableEq

/-- AI capability (struct MonsterAI); old_ai is the optional saved prior AI
(Box in Rust, plain nesting here). -/
inductive MonsterAI where
  | mk (monster_id : Nat) (old_ai : Option MonsterAI) (ai_type : MonsterAIType)

def MonsterAI.monster_id : MonsterAI → Nat
  | .mk m _ _ => m

def MonsterAI.old_ai : MonsterAI → Option MonsterAI
  | .mk _ o _ => o

def MonsterAI.ai_type : MonsterAI → MonsterAIType
  | .mk _ _ t => t

/-- Item effect tag (enum Item). -/
inductive Item where
  | Heal
  | Lightning
  | Fireball
  | Confuse
  | None
  deriving DecidableEq

/-- Result of using an item (enum UseResult). -/
inductive UseResult where
  | Used
  | Cancelled
  deriving DecidableEq

/-- Game entity (struct Object). -/
structure Object where
  x : Int
  y : Int
  char : Char
  name : String
  color : Color
  blocks : Bool
  always_visible : Bool
  on_ground : Bool
  level : Int
  fighter : Option Fighter
  ai : Option MonsterAI
  item : Option Item
  equipment : Option Equipment

/-- Object::new. -/
def Object.new (x y : Int) (char : Char) (name : String) (color : Color)
    (blocks : Bool) : Object :=
  { x := x, y := y, char := char, name := name, color := color, blocks := blocks,
    always_visible := false, on_ground := true, level := 0,
    fighter := none, ai := none, item := none, equipment := none }

/-- Default object used only to give list lookups a total type; every theorem
that depends on an index carries an in-bounds hypothesis, matching the source
where an out-of-bounds index panics. -/
def defaultObject : Object := Object.new 0 0 ' ' "" Color.white false

/-- Game state tag (enum GameState). -/
inductive GameState where
  | Playing
  | Death
  deriving DecidableEq

/-- The aggregate game state (struct Game).  The map is a column-major grid
(map[x][y]) as in the source. -/
structure Game where
  state : GameState
  dungeon_level : Int
  map : List (List Tile)
  fov_recompute : Bool
  messages : List (String × Color)
  objects : List Object
  player_id : Nat
  stairs_id : Nat
  inventory : List Nat

/-- Read game.objects[id]. -/
def getObj (g : Game) (id : Nat) : Object :=
  g.objects.getD id defaultObject

/-- Write game.objects[id]. -/
def setObj (g : Game) (id : Nat) (o : Object) : Game :=
  { g with objects := g.objects.set id o }

/-- Game::message: evict the oldest entry when the buffer is at capacity,
then append. -/
def Game.message (g : Game) (new_msg : String) (color : Color) : Game :=
  let ms := if g.messages.length == MSG_HEIGHT then g.messages.drop 1 else g.messages
  { g with messages := ms ++ [(new_msg, color)] }

/-- True when the object carries an equipped Equipment (the filter predicate of
get_all_equipped). -/
def isEquippedObj (o : Object) : Bool :=
  match o.equipment with
  | some e => e.is_equipped
  | none => false

def defaultEquipment : Equipment :=
  { slot := "", is_equipped := false, power_bonus := 0, defense_bonus := 0,
    max_hp_bonus := 0 }

/-- get_all_equipped: equipped items in the player's inventory; other objects
have no equipment bonuses. -/
def get_all_equipped (id : Nat) (g : Game) : List Equipment :=
  if id = g.player_id then
    (g.inventory.filter fun item_id => isEquippedObj (getObj g item_id)).map
      fun item_id => (getObj g item_id).equipment.getD defaultEquipment
  else []

/-- full_power: base power plus equipped power bonuses. -/
def full_power (id : Nat) (g : Game) : Int :=
  (match (getObj g id).fighter with
   | some f => f.base_power
   | none => 0)
  + (get_all_equipped id g).foldl (fun sum e => sum + e.power_bonus) 0

/-- full_defense: base defense plus equipped defense bonuses. -/
def full_defense (id : Nat) (g : Game) : Int :=
  (match (getObj g id).fighter with
   | some f => f.base_defense
   | none => 0)
  + (get_all_equipped id g).foldl (fun sum e => sum + e.defense_bonus) 0

/-- full_max_hp: base max hp plus equipped max-hp bonuses. -/
def full_max_hp (id : Nat) (g : Game) : Int :=
  (match (getObj g id).fighter with
   | some f => f.base_max_hp
   | none => 0)
  + (get_all_equipped id g).foldl (fun sum e => sum + e.max_hp_bonus) 0

/-- The per-entry test of get_equipped_in_slot: the object is equipped in the
given slot. -/
def equippedInSlot (objects : List Object) (id : Nat) (slot : String) : Bool :=
  match (objects.getD id defaultObject).equipment with
  | some e => e.is_equipped && e.slot == slot
  | none => false

/-- get_equipped_in_slot: first inventory entry equipped in the given slot. -/
def get_equipped_in_slot (slot : String) (inventory : List Nat)
    (objects : List Object) : Option Nat :=
  inventory.find? fun id => equippedInSlot objects id slot

/-- Tile lookup map[x][y]; out-of-bounds reads panic in the source, the default
here is never relied on by a theorem without bounds coming from the inputs. -/
def tileAt (m : List (List Tile)) (x y : Int) : Tile :=
  (m.getD x.toNat []).getD y.toNat { blocked := true, explored := false, block_sight := true }

/-- is_blocked: the tile blocks, or some blocking object stands there. -/
def is_blocked (x y : Int) (m : List (List Tile)) (objects : List Object) : Bool :=
  (tileAt m x y).blocked ||
    objects.any fun o => o.blocks && o.x == x && o.y == y

/-- move_by: move if the destination is not blocked. -/
def move_by (id : Nat) (dx dy : Int) (g : Game) : Game :=
  let o := getObj g id
  if is_blocked (o.x + dx) (o.y + dy) g.map g.objects then g
  else setObj g id { o with x := o.x + dx, y := o.y + dy }

/-- Award xp to the player's fighter (the unwrap in take_damage: the source
panics when the player has no Fighter, so theorems touching this path carry
that hypothesis). -/
def addXpToPlayer (g : Game) (xp : Int) : Game :=
  match (getObj g g.player_id).fighter with
  | some f => setObj g g.player_id
      { getObj g g.player_id with fighter := some { f with xp := f.xp + xp } }
  | none => g

/-- player_death: message, state becomes Death, glyph and color change.  The
Fighter and AI capabilities, the blocks flag and the name are left untouched. -/
def player_death (id : Nat) (g : Game) : Game :=
  let g := g.message "You died!" Color.red
  let g := { g with state := GameState.Death }
  setObj g id { getObj g id with char := '%', color := Color.darkRed }

/-- monster_death: message with xp gained, then the corpse transform. -/
def monster_death (id : Nat) (g : Game) : Game :=
  let o := getObj g id
  let xp := match o.fighter with
            | some f => f.xp
            | none => 0
  let g := g.message (o.name ++ " is dead! You gain " ++ toString xp ++
      " experience points.") Color.orange
  let o := getObj g id
  setObj g id { o with
                char := '%', color := Color.darkRed, blocks := false,
                fighter := none, ai := none, name := "remains of " ++ o.name }

/-- DeathCallback::callback dispatch. -/
def deathCallback (d : DeathCallback) (id : Nat) (g : Game) : Game :=
  match d with
  | .Monster => monster_death id g
  | .Player => player_death id g

/-- take_damage: apply damage when positive; when the resulting hp is ≤ 0 and a
death tag is present, award xp to the player (unless the target is the player)
and run the death callback. -/
def take_damage (id : Nat) (damage : Int) (g : Game) : Game :=
  match (getObj g id).fighter with
  | none => g
  | some f =>
    let newHp := if damage > 0 then f.hp - damage else f.hp
    let g1 := if damage > 0 then
        setObj g id { getObj g id with fighter := some { f with hp := newHp } }
      else g
    if newHp ≤ 0 then
      match f.death with
      | some d =>
        let g2 := if id ≠ g.player_id then addXpToPlayer g1 f.xp else g1
        deathCallback d id g2
      | none => g1
    else g1

/-- attack: damage is full_power of the attacker minus full_defense of the
target; positive damage is applied via take_damage, otherwise only the
no-effect message is emitted. -/
def attack (attacker_id target_id : Nat) (g : Game) : Game :=
  let damage := full_power attacker_id g - full_defense target_id g
  if damage > 0 then
    let g := g.message ((getObj g attacker_id).name ++ " attacks " ++
        (getObj g target_id).name ++ " for " ++ toString damage ++
        " hit points.") Color.white
    take_damage target_id damage g
  else
    g.message ((getObj g attacker_id).name ++ " attacks " ++
        (getObj g target_id).name ++ " but it has no effect!") Color.white

/-- dequip: unmark and message when equipped, otherwise a silent no-op. -/
def dequip (id : Nat) (g : Game) : Game :=
  match (getObj g id).equipment with
  | some e =>
    if e.is_equipped then
      let e := { e with is_equipped := false }
      let g := g.message ("Dequipped " ++ (getObj g id).name ++ " from " ++
          e.slot ++ ".") Color.lightYellow
      setObj g id { getObj g id with equipment := some e }
    else g
  | none => g

/-- Second half of equip: mark the entity equipped and emit the message (the
source re-reads objects[id].equipment after the occupant dequip; this is that
tail, factored out so the two halves compose). -/
def equipSetFlag (id : Nat) (g : Game) : Game :=
  match (getObj g id).equipment with
  | some e =>
    let e := { e with is_equipped := true }
    let g := g.message ("Equipped " ++ (getObj g id).name ++ " on " ++
        e.slot ++ ".") Color.lightGreen
    setObj g id { getObj g id with equipment := some e }
  | none => g

/-- equip: dequip whatever occupies the slot first, then mark equipped with a
message.  An entity without Equipment only triggers the (vacuous) slot lookup
for the empty-string slot, as in the source. -/
def equip (id : Nat) (g : Game) : Game :=
  let slot := match (getObj g id).equipment with
              | some e => e.slot
              | none => ""
  let g1 := match get_equipped_in_slot slot g.inventory g.objects with
            | some old_id => dequip old_id g
            | none => g
  equipSetFlag id g1

/-- pick_item_up: refuse with a message at 26 entries, else clear on_ground,
message, append to the inventory, and auto-equip when the slot is unused. -/
def pick_item_up (id : Nat) (g : Game) : Game :=
  if g.inventory.length ≥ 26 then
    g.message ("Your inventory is full, cannot pick up " ++
        (getObj g id).name ++ ".") Color.red
  else
    let g := setObj g id { getObj g id with on_ground := false }
    let g := g.message ("You picked up a " ++ (getObj g id).name ++ "!")
        Color.green
    let g := { g with inventory := g.inventory ++ [id] }
    match (getObj g id).equipment with
    | some e =>
      if (get_equipped_in_slot e.slot g.inventory g.objects).isNone then
        equip id g
      else g
    | none => g

/-- cast_heal: cancelled at full (equipment-inclusive) max hp, else heal by
HEAL_AMOUNT via Fighter.heal. -/
def cast_heal (g : Game) : Game × UseResult :=
  let max_hp := full_max_hp g.player_id g
  match (getObj g g.player_id).fighter with
  | some f =>
    if f.hp = max_hp then
      (g.message "You are already at full health." Color.red, UseResult.Cancelled)
    else
      let g := g.message "Your wounds start to feel better!" Color.lightViolet
      (setObj g g.player_id
        { getObj g g.player_id with fighter := some (f.heal HEAL_AMOUNT) },
       UseResult.Used)
  | none => (g, UseResult.Cancelled)

/-- player_move_or_attack: attack the first Fighter-carrying object at the
destination, otherwise move and flag the visibility dirty. -/
def player_move_or_attack (dx dy : Int) (g : Game) : Game :=
  let p := getObj g g.player_id
  let x := p.x + dx
  let y := p.y + dy
  let target := g.objects.findIdx? fun o => o.fighter.isSome && o.x == x && o.y == y
  match target with
  | some t => attack g.player_id t g
  | none =>
    let g := move_by g.player_id dx dy g
    { g with fov_recompute := true }

/-- Squared Euclidean distance between two objects.  Object::distance_to takes
the f32 square root of this; the correctly rounded square root is strictly
monotone on the distinct integer radicands that fit the 80x43 map, and the
initial bound (max_range + 1) is integer-valued and exactly representable, so
every comparison the source performs on distances is equivalent to the same
comparison on the squared distances used here. -/
def distanceSq (o other : Object) : Int :=
  (other.x - o.x) ^ 2 + (other.y - o.y) ^ 2

/-- Indexed view of a list, mirroring iter().enumerate() starting at i. -/
def withIdx : Nat → List Object → List (Nat × Object)
  | _, [] => []
  | i, o :: rest => (i, o) :: withIdx (i + 1) rest

/-- Scan of closest_monster: fold over the enumerated objects keeping the
closest non-player Fighter-carrying object inside the visibility oracle. -/
def closestScan (px py : Int) (pid : Nat) (fov : Int → Int → Bool) :
    List (Nat × Object) → Option Nat × Int → Option Nat × Int
  | [], acc => acc
  | (i, o) :: rest, (best, bestSq) =>
    if i != pid && o.fighter.isSome && fov o.x o.y then
      let d := (o.x - px) ^ 2 + (o.y - py) ^ 2
      if d < bestSq then closestScan px py pid fov rest (some i, d)
      else closestScan px py pid fov rest (best, bestSq)
    else closestScan px py pid fov rest (best, bestSq)

/-- closest_monster: closest enemy with a Fighter, in view, strictly closer
than max_range + 1 (the source seeds the scan with that distance). -/
def closest_monster (max_range : Int) (g : Game) (fov : Int → Int → Bool) :
    Option Nat :=
  let p := getObj g g.player_id
  (closestScan p.x p.y g.player_id fov (withIdx 0 g.objects)
    (none, (max_range + 1) ^ 2)).1

/-- cast_lightning: strike the closest monster for LIGHTNING_DAMAGE, or cancel
with a message when none is found. -/
def cast_lightning (g : Game) (fov : Int → Int → Bool) : Game × UseResult :=
  match closest_monster LIGHTNING_RANGE g fov with
  | some monster_id =>
    let g := g.message ("A lightning bolt strikes the " ++
        (getObj g monster_id).name ++ " with a loud thunder!\n The damage is "
        ++ toString LIGHTNING_DAMAGE ++ " hit points.") Color.lightBlue
    (take_damage monster_id LIGHTNING_DAMAGE g, UseResult.Used)
  | none =>
    (g.message "No enemy is close enough to strike." Color.red,
     UseResult.Cancelled)

/-- Model of rand 0.3 gen_range(low, high): a uniform draw from the half-open
band [low, high), driven by an abstract seed. -/
def gen_range (lo hi : Int) (seed : Nat) : Int :=
  lo + (seed : Int) % (hi - lo)

/-- monster_confused_ai: while num_turns > 0, move by a random offset from
gen_range(-1, 1) on each axis and decrement; at 0, message and hand back the
saved prior AI (the first component is the mutated self, the second the
replacement the function returns). -/
def monster_confused_ai (ai : MonsterAI) (g : Game) (s1 s2 : Nat) :
    (MonsterAI × Option MonsterAI) × Game :=
  match ai with
  | .mk mid old t =>
    match t with
    | .Confused n =>
      if n > 0 then
        ((MonsterAI.mk mid old (.Confused (n - 1)), none),
         move_by mid (gen_range (-1) 1 s1) (gen_range (-1) 1 s2) g)
      else
        ((MonsterAI.mk mid none t, old),
         g.message ("The " ++ (getObj g mid).name ++ " is no longer confused!")
           Color.red)
    | .Basic => ((ai, none), g)

/-- MonsterAI::take_turn dispatch.  The Basic arm (chase or attack the player)
is irrelevant to every claim below, all of which step entities whose ai_type is
Confused; its game effect is therefore an oracle parameter, like the fov. -/
def take_turn (basic : MonsterAI → Game → Game) (ai : MonsterAI) (g : Game)
    (s1 s2 : Nat) : (MonsterAI × Option MonsterAI) × Game :=
  match ai.ai_type with
  | .Basic => ((ai, none), basic ai g)
  | .Confused _ => monster_confused_ai ai g s1 s2

/-- One entity's slot of the AI pass in play_game: take the AI, run its turn,
and store the returned replacement, falling back to the (mutated) current AI. -/
def ai_step (basic : MonsterAI → Game → Game) (id : Nat) (g : Game)
    (s1 s2 : Nat) : Game :=
  match (getObj g id).ai with
  | none => g
  | some ai =>
    let g0 := setObj g id { getObj g id with ai := none }
    let r := take_turn basic ai g0 s1 s2
    setObj r.2 id { getObj r.2 id with ai := r.1.2.or (some r.1.1) }

/-- Iterated AI steps of one entity, one seed pair per turn. -/
def ai_steps (basic : MonsterAI → Game → Game) (id : Nat) :
    Game → List (Nat × Nat) → Game
  | g, [] => g
  | g, (s1, s2) :: rest => ai_steps basic id (ai_step basic id g s1 s2) rest

/-- Carry-over rebuild at the top of make_map: a fresh arena holding the clone
of objects[new player id] (the source overwrites player_id with 0 before
reading, so entry 0 of the old arena is what gets cloned) followed by clones of
the inventoried items, with the inventory remapped to the new indices. -/
def rebuild (objects : List Object) (inventory : List Nat) :
    Nat × List Object × List Nat :=
  let pid := 0
  let start := [objects.getD pid defaultObject]
  let step := fun (acc : List Object × List Nat) (item_id : Nat) =>
    (acc.1 ++ [objects.getD item_id defaultObject], acc.2 ++ [acc.1.length])
  let r := inventory.foldl step (start, [])
  (pid, r.1, r.2)

/-- Room-placement loop of make_map, restricted to its effect on the rooms
list and the object arena.  Candidate rects stand for the random draws; the
place oracle stands for place_objects (it yields the objects appended for a
room, reading the arena so far for its occupancy checks); tile carving and
tunnels only touch the map and are omitted.  A candidate intersecting any
accepted room is discarded; the first accepted room repositions the player. -/
def roomsLoop (place : Rect → List Object → List Object) (pid : Nat) :
    List Rect → List Rect → List Object → List Rect × List Object
  | [], rooms, objs => (rooms, objs)
  | r :: rest, rooms, objs =>
    if rooms.any fun other => r.intersect other then
      roomsLoop place pid rest rooms objs
    else
      let objs := objs ++ place r objs
      let objs := if rooms.isEmpty then
          objs.set pid { objs.getD pid defaultObject with
                         x := r.center.1, y := r.center.2 }
        else objs
      roomsLoop place pid rest (rooms ++ [r]) objs

/-- The stairs object make_map appends at the center of the last room. -/
def stairsObject (c : Int × Int) : Object :=
  { Object.new c.1 c.2 '<' "stairs" Color.white false with always_visible := true }

/-- Result of the make_map model. -/
structure MakeMapResult where
  player_id : Nat
  stairs_id : Nat
  objects : List Object
  inventory : List Nat
  rooms : List Rect

/-- make_map, modelled on its entity effects: rebuild the arena from the
player and inventory clones, run the room loop, then append the stairs at the
center of the last accepted room (the source indexes rooms[len - 1], which
panics when no room was accepted). -/
def make_map_model (place : Rect → List Object → List Object)
    (cands : List Rect) (objects : List Object) (inventory : List Nat) :
    MakeMapResult :=
  let r := rebuild objects inventory
  let rl := roomsLoop place r.1 cands [] r.2.1
  let lastCenter := (rl.1.getLast?.getD { x1 := 0, y1 := 0, x2 := 0, y2 := 0 }).center
  { player_id := r.1
    stairs_id := rl.2.length
    objects := rl.2 ++ [stairsObject lastCenter]
    inventory := r.2.2
    rooms := rl.1 }

@[simp]
theorem objects_message (g : Game) (m : String) (c : Color) :
    (g.message m c).objects = g.objects := rfl

@[simp]
theorem getObj_message (g : Game) (m : String) (c : Color) (j : Nat) :
    getObj (g.message m c) j = getObj g j := rfl

@[simp]
theorem player_id_message (g : Game) (m : String) (c : Color) :
    (g.message m c).player_id = g.player_id := rfl

@[simp]
theorem inventory_message (g : Game) (m : String) (c : Color) :
    (g.message m c).inventory = g.inventory := rfl

@[simp]
theorem fov_message (g : Game) (m : String) (c : Color) :
    (g.message m c).fov_recompute = g.fov_recompute := rfl

@[simp]
theorem state_message (g : Game) (m : String) (c : Color) :
    (g.message m c).state = g.state := rfl

@[simp]
theorem map_message (g : Game) (m : String) (c : Color) :
    (g.message m c).map = g.map := rfl

@[simp]
theorem objects_setObj (g : Game) (id : Nat) (o : Object) :
    (setObj g id o).objects = g.objects.set id o := rfl

@[simp]
theorem messages_setObj (g : Game) (id : Nat) (o : Object) :
    (setObj g id o).messages = g.messages := rfl

@[simp]
theorem player_id_setObj (g : Game) (id : Nat) (o : Object) :
    (setObj g id o).player_id = g.player_id := rfl

@[simp]
theorem inventory_setObj (g : Game) (id : Nat) (o : Object) :
    (setObj g id o).inventory = g.inventory := rfl

@[simp]
theorem fov_setObj (g : Game) (id : Nat) (o : Object) :
    (setObj g id o).fov_recompute = g.fov_recompute := rfl

@[simp]
theorem state_setObj (g : Game) (id : Nat) (o : Object) :
    (setObj g id o).state = g.state := rfl

@[simp]
theorem map_setObj (g : Game) (id : Nat) (o : Object) :
    (setObj g id o).map = g.map := rfl

@[simp]
theorem length_setObj (g : Game) (id : Nat) (o : Object) :
    (setObj g id o).objects.length = g.objects.length := by
  simp [setObj]

theorem getObj_setObj_self (g : Game) (id : Nat) (o : Object)
    (h : id < g.objects.length) : getObj (setObj g id o) id = o := by
  simp [getObj, setObj, List.getD, List.getElem?_set_self, h]

theorem getObj_setObj_ne (g : Game) (id j : Nat) (o : Object) (h : id ≠ j) :
    getObj (setObj g id o) j = getObj g j := by
  simp [getObj, setObj, List.getD, List.getElem?_set_ne, h]

theorem getObj_oob (g : Game) (j : Nat) (h : ¬ j < g.objects.length) :
    getObj g j = defaultObject := by
  simp [getObj, List.getD, List.getElem?_eq_none (Nat.le_of_not_lt h)]

/-- The accepted-rooms list of the loop never loses its head and never becomes
empty once non-empty. -/
theorem roomsLoop_head (place : Rect → List Object → List Object) (pid : Nat) :
    ∀ (cands rooms : List Rect), rooms ≠ [] → ∀ (objs : List Object),
      (roomsLoop place pid cands rooms objs).1.head? = rooms.head? ∧
      (roomsLoop place pid cands rooms objs).1 ≠ []
  | [], rooms, h, objs => by simp [roomsLoop, h]
  | r :: rest, rooms, h, objs => by
    rw [roomsLoop]
    by_cases hi : (rooms.any fun other => r.intersect other) = true
    · simpa [hi] using roomsLoop_head place pid rest rooms h objs
    · have hne : rooms ++ [r] ≠ [] := by simp
      have ih := roomsLoop_head place pid rest (rooms ++ [r]) hne
      simp only [hi]
      simp only [Bool.false_eq_true, if_false]
      refine ⟨?_, (ih _).2⟩
      rw [(ih _).1, List.head?_append]
      cases rooms with
      | nil => exact absurd rfl h
      | cons a l => simp

/-- C10: the dungeon generator accepts at least one room — the intersection
test over the empty accepted list is vacuously false, so the first candidate
is always accepted and becomes the first room; hence the rooms list is
non-empty, the player spawn (first room's center) is well-defined, and the
stairs placement at the last accepted room (rooms[rooms.len() - 1]) never
indexes an empty list. -/
theorem c10_generator_accepts_first_room
    (place : Rect → List Object → List Object)
    (cands : List Rect) (objects : List Object) (inventory : List Nat)
    (h : cands.length = MAX_ROOMS) :
    (make_map_model place cands objects inventory).rooms ≠ [] ∧
    (make_map_model place cands objects inventory).rooms.head? = cands.head? ∧
    (make_map_model place cands objects inventory).rooms.getLast?.isSome = true := by
  match cands, h with
  | c :: rest, h =>
    have hstep : ∀ objs, roomsLoop place 0 (c :: rest) [] objs =
        roomsLoop place 0 rest [c]
          ((objs ++ place c objs).set 0
            { (objs ++ place c objs).getD 0 defaultObject with
              x := c.center.1, y := c.center.2 }) := by
      intro objs
      rw [roomsLoop]
      simp [List.any_nil]
    have hh := roomsLoop_head place 0 rest [c] (by simp)
    constructor
    · simp only [make_map_model, rebuild, hstep]
      exact (hh _).2
    constructor
    · simp only [make_map_model, rebuild, hstep]
      rw [(hh _).1]
      simp
    · simp only [make_map_model, rebuild, hstep]
      rw [List.getLast?_isSome]
      exact (hh _).2

/-- Sample candidate list for the C10 witness. -/
def c10Cands : List Rect := List.replicate MAX_ROOMS (Rect.new 1 1 6 6)

/-- Witness for C10 at a concrete candidate list of length MAX_ROOMS. -/
theorem c10_generator_accepts_first_room_witness :
    (make_map_model (fun _ _ => []) c10Cands [] []).rooms ≠ [] ∧
    (make_map_model (fun _ _ => []) c10Cands [] []).rooms.head? = c10Cands.head? ∧
    (make_map_model (fun _ _ => []) c10Cands [] []).rooms.getLast?.isSome = true :=
  c10_generator_accepts_first_room (fun _ _ => []) c10Cands [] [] (by decide)

/-- An empty game shell used to build small concrete states. -/
def emptyGame : Game :=
  { state := GameState.Playing, dungeon_level := 1, map := [],
    fov_recompute := false, messages := [], objects := [], player_id := 0,
    stairs_id := 0, inventory := [] }

def c1Fighter : Fighter :=
  { base_max_hp := 100, hp := 90, base_defense := 1, base_power := 2, xp := 0,
    death := some DeathCallback.Player }

def c1Player : Object :=
  { Object.new 0 0 '@' "player" Color.white true with
    level := 1, fighter := some c1Fighter }

/-- An equipped trinket granting a max-hp bonus, carried in the inventory. -/
def c1Band : Object :=
  { Object.new 0 0 '-' "band" Color.sky false with
    item := some Item.None,
    equipment := some { slot := "right hand", is_equipped := true,
                        power_bonus := 0, defense_bonus := 0,
                        max_hp_bonus := 50 } }

def c1Game : Game :=
  { emptyGame with objects := [c1Player, c1Band], inventory := [1] }

/-- C1 counterexample: with an equipped max-hp bonus the player's
full_max_hp is 150 and hp is 90, so the claim predicts healing to
min(90 + 40, 150) = 130; cast_heal instead caps at base_max_hp = 100
(Fighter::heal compares against base_max_hp), so the claimed capped-at-
full_max_hp increase is false on this state. -/
theorem c1_heal_cap_counterexample :
    full_max_hp 0 c1Game = 150 ∧
    (getObj c1Game 0).fighter = some c1Fighter ∧
    c1Fighter.hp = 90 ∧
    (cast_heal c1Game).2 = UseResult.Used ∧
    (getObj (cast_heal c1Game).1 0).fighter = some { c1Fighter with hp := 100 } ∧
    (getObj (cast_heal c1Game).1 0).fighter ≠
      some { c1Fighter with
             hp := min (c1Fighter.hp + HEAL_AMOUNT) (full_max_hp 0 c1Game) } := by
  refine ⟨by decide, by decide, by decide, by decide, by decide, by decide⟩

/-- Fighter.heal is healing capped at base_max_hp. -/
theorem heal_eq_min (f : Fighter) (a : Int) :
    f.heal a = { f with hp := min (f.hp + a) f.base_max_hp } := by
  simp only [Fighter.heal]
  congr 1
  split <;> omega

/-- Updating only the fighter of an in-bounds object stores what was written. -/
theorem getObj_setObj_fighter (g : Game) (id : Nat) (fo : Option Fighter)
    (h : id < g.objects.length) :
    (getObj (setObj g id { getObj g id with fighter := fo }) id).fighter = fo := by
  rw [getObj_setObj_self g id _ h]

/-- C1 (amended): when the player carries a Fighter, cast_heal is Cancelled
with a message and no hp change exactly when hp equals full_max_hp; otherwise
it is Used and hp becomes min(hp + HEAL_AMOUNT, base_max_hp) — the cap is the
base maximum, which coincides with full_max_hp whenever no equipped item
carries a max-hp bonus (true of every item catalog entry in the source). -/
theorem c1_cast_heal_amended (g : Game) (f : Fighter)
    (hf : (getObj g g.player_id).fighter = some f)
    (hpid : g.player_id < g.objects.length) :
    (f.hp = full_max_hp g.player_id g →
      cast_heal g = (g.message "You are already at full health." Color.red,
                     UseResult.Cancelled) ∧
      (getObj (cast_heal g).1 g.player_id).fighter = some f) ∧
    (f.hp ≠ full_max_hp g.player_id g →
      (cast_heal g).2 = UseResult.Used ∧
      (getObj (cast_heal g).1 g.player_id).fighter =
        some { f with hp := min (f.hp + HEAL_AMOUNT) f.base_max_hp }) := by
  constructor
  · intro heq
    have h1 : cast_heal g = (g.message "You are already at full health." Color.red,
        UseResult.Cancelled) := by
      simp only [cast_heal, hf]
      rw [if_pos heq]
    refine ⟨h1, ?_⟩
    rw [h1]
    simpa using hf
  · intro hne
    have h2 : cast_heal g =
        (setObj (g.message "Your wounds start to feel better!" Color.lightViolet)
          g.player_id
          { getObj (g.message "Your wounds start to feel better!" Color.lightViolet)
              g.player_id with fighter := some (f.heal HEAL_AMOUNT) },
         UseResult.Used) := by
      simp only [cast_heal, hf]
      rw [if_neg hne]
      rfl
    refine ⟨by rw [h2], ?_⟩
    have h3 := getObj_setObj_fighter
      (g.message "Your wounds start to feel better!" Color.lightViolet)
      g.player_id (some (f.heal HEAL_AMOUNT)) (by simpa using hpid)
    have h4 : (cast_heal g).1 =
        setObj (g.message "Your wounds start to feel better!" Color.lightViolet)
          g.player_id
          { getObj (g.message "Your wounds start to feel better!" Color.lightViolet)
              g.player_id with fighter := some (f.heal HEAL_AMOUNT) } := by
      rw [h2]
    rw [h4]
    rw [heal_eq_min] at h3 ⊢
    exact h3

def c1WitFighter : Fighter :=
  { base_max_hp := 100, hp := 50, base_defense := 1, base_power := 2, xp := 0,
    death := some DeathCallback.Player }

def c1WitGame : Game :=
  { emptyGame with
    objects := [{ Object.new 0 0 '@' "player" Color.white true with
                  level := 1, fighter := some c1WitFighter }] }

/-- Witness for C1 at a concrete understrength player: heals 50 to 90. -/
theorem c1_cast_heal_amended_witness :
    (cast_heal c1WitGame).2 = UseResult.Used ∧
    (getObj (cast_heal c1WitGame).1 0).fighter =
      some { c1WitFighter with
             hp := min (c1WitFighter.hp + HEAL_AMOUNT) c1WitFighter.base_max_hp } :=
  (c1_cast_heal_amended c1WitGame c1WitFighter (by decide) (by decide)).2 (by decide)

theorem fov_addXpToPlayer (g : Game) (xp : Int) :
    (addXpToPlayer g xp).fov_recompute = g.fov_recompute := by
  unfold addXpToPlayer
  split <;> rfl

theorem fov_player_death (id : Nat) (g : Game) :
    (player_death id g).fov_recompute = g.fov_recompute := rfl

theorem fov_monster_death (id : Nat) (g : Game) :
    (monster_death id g).fov_recompute = g.fov_recompute := rfl

theorem fov_deathCallback (d : DeathCallback) (id : Nat) (g : Game) :
    (deathCallback d id g).fov_recompute = g.fov_recompute := by
  cases d
  · exact fov_monster_death id g
  · exact fov_player_death id g

theorem fov_take_damage (id : Nat) (dmg : Int) (g : Game) :
    (take_damage id dmg g).fov_recompute = g.fov_recompute := by
  simp only [take_damage]
  cases hf : (getObj g id).fighter with
  | none => rfl
  | some f =>
    dsimp only []
    by_cases h0 : (if dmg > 0 then f.hp - dmg else f.hp) ≤ 0
    · rw [if_pos h0]
      split
      · rw [fov_deathCallback]
        by_cases hp2 : id ≠ g.player_id
        · rw [if_pos hp2, fov_addXpToPlayer]
          split <;> rfl
        · rw [if_neg hp2]
          split <;> rfl
      · split <;> rfl
    · rw [if_neg h0]
      split <;> rfl

theorem fov_attack (attacker_id target_id : Nat) (g : Game) :
    (attack attacker_id target_id g).fov_recompute = g.fov_recompute := by
  simp only [attack]
  split
  · rw [fov_take_damage]
    rfl
  · rfl

/-- C8 (amended): a player movement intent sets the fov-dirty flag exactly
when it finds no attack target at the destination — including when the move
itself is blocked by a tile or entity and the position does not change; when
an attack target is found the flag is left unchanged.  The claim's stronger
statement, that a blocked move leaves the flag unchanged, is refuted by
c8_fov_flag_counterexample. -/
theorem c8_fov_flag_amended (g : Game) (dx dy : Int) :
    ((g.objects.findIdx? fun o => o.fighter.isSome &&
        o.x == (getObj g g.player_id).x + dx &&
        o.y == (getObj g g.player_id).y + dy) = none →
      (player_move_or_attack dx dy g).fov_recompute = true ∧
      (player_move_or_attack dx dy g).objects =
        (move_by g.player_id dx dy g).objects) ∧
    (∀ t, (g.objects.findIdx? fun o => o.fighter.isSome &&
        o.x == (getObj g g.player_id).x + dx &&
        o.y == (getObj g g.player_id).y + dy) = some t →
      (player_move_or_attack dx dy g).fov_recompute = g.fov_recompute) := by
  constructor
  · intro hnone
    simp only [player_move_or_attack, hnone]
    refine ⟨?_, ?_⟩ <;> first | rfl | trivial
  · intro t ht
    simp only [player_move_or_attack, ht]
    exact fov_attack g.player_id t g

def blockedTile : Tile := { blocked := true, explored := false, block_sight := true }

def openTile : Tile := { blocked := false, explored := false, block_sight := false }

/-- Map column-major grid: only (1,1) is walkable. -/
def c8Map : List (List Tile) :=
  [[blockedTile, blockedTile, blockedTile],
   [blockedTile, openTile, blockedTile],
   [blockedTile, blockedTile, blockedTile]]

def c8Player : Object :=
  { Object.new 1 1 '@' "player" Color.white true with
    level := 1,
    fighter := some { base_max_hp := 100, hp := 100, base_defense := 1,
                      base_power := 2, xp := 0,
                      death := some DeathCallback.Player } }

def c8Game : Game :=
  { emptyGame with map := c8Map, objects := [c8Player] }

/-- C8 counterexample: the player stands at (1,1) of a map whose only walkable
tile is (1,1); moving down finds no attack target and the move is blocked, so
the position stays (1,1) — yet fov_recompute flips from false to true,
refuting the claim that the flag stays unchanged on a failed move. -/
theorem c8_fov_flag_counterexample :
    c8Game.fov_recompute = false ∧
    (c8Game.objects.findIdx? fun o => o.fighter.isSome &&
        o.x == (getObj c8Game c8Game.player_id).x + 0 &&
        o.y == (getObj c8Game c8Game.player_id).y + 1) = none ∧
    (getObj (player_move_or_attack 0 1 c8Game) 0).x = 1 ∧
    (getObj (player_move_or_attack 0 1 c8Game) 0).y = 1 ∧
    (player_move_or_attack 0 1 c8Game).fov_recompute = true := by
  refine ⟨rfl, by decide, by decide, by decide, by decide⟩

def c8Orc : Object :=
  { Object.new 1 2 'o' "orc" Color.desaturatedGreen true with
    fighter := some { base_max_hp := 20, hp := 20, base_defense := 0,
                      base_power := 4, xp := 35,
                      death := some DeathCallback.Monster } }

def c8AttackGame : Game :=
  { emptyGame with map := c8Map, objects := [c8Player, c8Orc] }

/-- Witness for C8 at two concrete states: a blocked move with no target, and
an attack on an adjacent orc. -/
theorem c8_fov_flag_amended_witness :
    ((player_move_or_attack 0 1 c8Game).fov_recompute = true ∧
     (player_move_or_attack 0 1 c8Game).objects =
       (move_by c8Game.player_id 0 1 c8Game).objects) ∧
    (player_move_or_attack 0 1 c8AttackGame).fov_recompute =
      c8AttackGame.fov_recompute :=
  ⟨(c8_fov_flag_amended c8Game 0 1).1 (by decide),
   (c8_fov_flag_amended c8AttackGame 0 1).2 1 (by decide)⟩

theorem setObj_oob (g : Game) (id : Nat) (o : Object)
    (h : ¬ id < g.objects.length) : (setObj g id o).objects = g.objects := by
  simp [setObj, List.set_eq_of_length_le (Nat.le_of_not_lt h)]

theorem getObj_addXp_ne (g : Game) (xp : Int) (id : Nat)
    (h : id ≠ g.player_id) : getObj (addXpToPlayer g xp) id = getObj g id := by
  unfold addXpToPlayer
  split
  · exact getObj_setObj_ne _ _ _ _ (Ne.symm h)
  · rfl

/-- monster_death removes the Fighter of its target (in or out of bounds: out
of bounds the arena is untouched and the default lookup has no fighter). -/
theorem fighter_monster_death (id : Nat) (g : Game) :
    (getObj (monster_death id g) id).fighter = none := by
  by_cases h : id < g.objects.length
  · unfold monster_death
    rw [getObj_setObj_self _ _ _ (by simpa using h)]
  · unfold monster_death
    rw [getObj, setObj_oob _ _ _ (by simpa using h)]
    simp only [objects_message]
    have h3 := getObj_oob g id h
    simp only [getObj] at h3
    rw [h3]
    rfl

/-- player_death only changes the glyph and color of its target. -/
theorem getObj_player_death (id : Nat) (g : Game) (h : id < g.objects.length) :
    getObj (player_death id g) id =
      { getObj g id with char := '%', color := Color.darkRed } := by
  unfold player_death
  rw [getObj_setObj_self _ _ _ (by simpa using h)]
  rfl

/-- C4: attack damage equals full_power(attacker) − full_defense(target); a
positive value is routed through take_damage after the hit message; a
non-positive value changes no object and emits the no-effect message; and
take_damage with amount ≤ 0 never changes the target's hp (damage never
heals). -/
theorem c4_attack_nonpositive_damage (g : Game)
    (attacker_id target_id id : Nat) (amount : Int) (f : Fighter) :
    (full_power attacker_id g - full_defense target_id g ≤ 0 →
      (attack attacker_id target_id g).objects = g.objects ∧
      (attack attacker_id target_id g).messages =
        (g.message ((getObj g attacker_id).name ++ " attacks " ++
          (getObj g target_id).name ++ " but it has no effect!")
          Color.white).messages) ∧
    (0 < full_power attacker_id g - full_defense target_id g →
      attack attacker_id target_id g =
        take_damage target_id (full_power attacker_id g - full_defense target_id g)
          (g.message ((getObj g attacker_id).name ++ " attacks " ++
            (getObj g target_id).name ++ " for " ++
            toString (full_power attacker_id g - full_defense target_id g) ++
            " hit points.") Color.white)) ∧
    (amount ≤ 0 → (getObj g id).fighter = some f →
      ∀ f2, (getObj (take_damage id amount g) id).fighter = some f2 →
        f2.hp = f.hp) := by
  refine ⟨?_, ?_, ?_⟩
  · intro hle
    have : ¬ full_power attacker_id g - full_defense target_id g > 0 := by omega
    simp only [attack, if_neg this]
    refine ⟨?_, ?_⟩ <;> first | rfl | trivial
  · intro hpos
    simp only [attack, if_pos hpos]
  · intro hle hf f2 hf2
    have hng : ¬ amount > 0 := by omega
    simp only [take_damage, hf, if_neg hng] at hf2
    by_cases hhp : f.hp ≤ 0
    · rw [if_pos hhp] at hf2
      cases hdth : f.death with
      | none =>
        rw [hdth] at hf2
        simp only [hf] at hf2
        cases hf2
        rfl
      | some d =>
        rw [hdth] at hf2
        cases d with
        | Monster =>
          simp only [deathCallback] at hf2
          rw [fighter_monster_death] at hf2
          exact absurd hf2 (by simp)
        | Player =>
          simp only [deathCallback] at hf2
          by_cases hlen : id < g.objects.length
          · by_cases hpid : id ≠ g.player_id
            · rw [if_pos hpid] at hf2
              have hlen2 : id < (addXpToPlayer g f.xp).objects.length := by
                unfold addXpToPlayer
                split
                · simpa using hlen
                · exact hlen
              rw [getObj_player_death _ _ hlen2] at hf2
              simp only [getObj_addXp_ne g f.xp id hpid, hf] at hf2
              cases hf2
              rfl
            · rw [if_neg hpid] at hf2
              rw [getObj_player_death _ _ hlen] at hf2
              simp only [hf] at hf2
              cases hf2
              rfl
          · have : (getObj g id).fighter = none := by
              rw [getObj_oob g id hlen]
              rfl
            rw [this] at hf
            exact absurd hf (by simp)
    · rw [if_neg hhp] at hf2
      rw [hf] at hf2
      cases hf2
      rfl

def c4Player : Object :=
  { Object.new 0 0 '@' "player" Color.white true with
    level := 1,
    fighter := some { base_max_hp := 100, hp := 100, base_defense := 5,
                      base_power := 2, xp := 0,
                      death := some DeathCallback.Player } }

def c4Troll : Object :=
  { Object.new 1 0 'T' "troll" Color.darkerGreen true with
    fighter := some { base_max_hp := 30, hp := 30, base_defense := 2,
                      base_power := 8, xp := 100,
                      death := some DeathCallback.Monster } }

def c4Game : Game :=
  { emptyGame with objects := [c4Player, c4Troll] }

/-- Witness for C4: the player (power 2) attacks a troll (defense 2) with no
effect; the troll (power 8) would deal 3 to the player (defense 5); a
non-positive take_damage leaves hp intact. -/
theorem c4_attack_nonpositive_damage_witness :
    ((attack 0 1 c4Game).objects = c4Game.objects ∧
     (attack 0 1 c4Game).messages =
       (c4Game.message ((getObj c4Game 0).name ++ " attacks " ++
         (getObj c4Game 1).name ++ " but it has no effect!")
         Color.white).messages) ∧
    (attack 1 0 c4Game =
      take_damage 0 (full_power 1 c4Game - full_defense 0 c4Game)
        (c4Game.message ((getObj c4Game 1).name ++ " attacks " ++
          (getObj c4Game 0).name ++ " for " ++
          toString (full_power 1 c4Game - full_defense 0 c4Game) ++
          " hit points.") Color.white)) ∧
    (∀ f2, (getObj (take_damage 1 (-7) c4Game) 1).fighter = some f2 →
      f2.hp = (30 : Int)) :=
  ⟨(c4_attack_nonpositive_damage c4Game 0 1 0 0
      { base_max_hp := 30, hp := 30, base_defense := 2, base_power := 8,
        xp := 100, death := some DeathCallback.Monster }).1 (by decide),
   (c4_attack_nonpositive_damage c4Game 1 0 0 0
      { base_max_hp := 30, hp := 30, base_defense := 2, base_power := 8,
        xp := 100, death := some DeathCallback.Monster }).2.1 (by decide),
   (c4_attack_nonpositive_damage c4Game 0 1 1 (-7)
      { base_max_hp := 30, hp := 30, base_defense := 2, base_power := 8,
        xp := 100, death := some DeathCallback.Monster }).2.2 (by decide) (by decide)⟩

theorem state_addXp (g : Game) (xp : Int) :
    (addXpToPlayer g xp).state = g.state := by
  unfold addXpToPlayer
  split <;> rfl

theorem length_addXp (g : Game) (xp : Int) :
    (addXpToPlayer g xp).objects.length = g.objects.length := by
  unfold addXpToPlayer
  split <;> simp

theorem state_monster_death (id : Nat) (g : Game) :
    (monster_death id g).state = g.state := rfl

theorem state_player_death (id : Nat) (g : Game) :
    (player_death id g).state = GameState.Death := rfl

/-- monster_death's full corpse transform on its in-bounds target. -/
theorem getObj_monster_death (id : Nat) (g : Game) (h : id < g.objects.length) :
    getObj (monster_death id g) id =
      { getObj g id with
        char := '%', color := Color.darkRed, blocks := false,
        fighter := none, ai := none,
        name := "remains of " ++ (getObj g id).name } := by
  unfold monster_death
  rw [getObj_setObj_self _ _ _ (by simpa using h)]
  rfl

theorem getObj_monster_death_ne (id j : Nat) (g : Game) (h : id ≠ j) :
    getObj (monster_death id g) j = getObj g j := by
  unfold monster_death
  rw [getObj_setObj_ne _ _ _ _ h]
  rfl

theorem getObj_player_death_ne (id j : Nat) (g : Game) (h : id ≠ j) :
    getObj (player_death id g) j = getObj g j := by
  unfold player_death
  rw [getObj_setObj_ne _ _ _ _ h]
  rfl

theorem getObj_addXp_self (g : Game) (xp : Int) (fp : Fighter)
    (hfp : (getObj g g.player_id).fighter = some fp)
    (h : g.player_id < g.objects.length) :
    getObj (addXpToPlayer g xp) g.player_id =
      { getObj g g.player_id with fighter := some { fp with xp := fp.xp + xp } } := by
  unfold addXpToPlayer
  rw [hfp]
  exact getObj_setObj_self _ _ _ h

/-- C2 (amended): when apply_damage drops a death-tagged Fighter's hp to ≤ 0,
the xp is added to the player's xp (skipped when the dying entity is the
player itself) and the tag's callback runs: the Monster tag strips Fighter and
AI, clears blocks and renames to remains-of; the Player tag changes only glyph
and color and sets the game state to Death, leaving the Fighter, the blocks
flag and the name untouched (refuted strip for the player is
c2_player_death_counterexample). -/
theorem c2_death_transform_amended (g : Game) (id : Nat) (dmg : Int)
    (f fp : Fighter) (tag : DeathCallback)
    (hlen : id < g.objects.length)
    (hplen : g.player_id < g.objects.length)
    (hf : (getObj g id).fighter = some f)
    (hdth : f.death = some tag)
    (hdmg : 0 < dmg)
    (hkill : f.hp - dmg ≤ 0) :
    (id ≠ g.player_id → tag = DeathCallback.Monster →
      (getObj g g.player_id).fighter = some fp →
      (getObj (take_damage id dmg g) id).fighter = none ∧
      (getObj (take_damage id dmg g) id).ai = none ∧
      (getObj (take_damage id dmg g) id).blocks = false ∧
      (getObj (take_damage id dmg g) id).name =
        "remains of " ++ (getObj g id).name ∧
      (getObj (take_damage id dmg g) g.player_id).fighter =
        some { fp with xp := fp.xp + f.xp } ∧
      (take_damage id dmg g).state = g.state) ∧
    (id = g.player_id → tag = DeathCallback.Player →
      (take_damage id dmg g).state = GameState.Death ∧
      (getObj (take_damage id dmg g) id).fighter =
        some { f with hp := f.hp - dmg } ∧
      (getObj (take_damage id dmg g) id).name = (getObj g id).name ∧
      (getObj (take_damage id dmg g) id).blocks = (getObj g id).blocks) := by
  constructor
  · intro hne htag hfp
    subst htag
    have hred : take_damage id dmg g =
        monster_death id (addXpToPlayer
          (setObj g id { getObj g id with fighter := some { f with hp := f.hp - dmg } })
          f.xp) := by
      simp only [take_damage, hf, if_pos hdmg, hdth, if_pos hkill, deathCallback]
      rw [if_pos hne]
    rw [hred]
    have hg1pid : (setObj g id { getObj g id with
        fighter := some { f with hp := f.hp - dmg } }).player_id = g.player_id := rfl
    have hobjid : getObj (addXpToPlayer
        (setObj g id { getObj g id with fighter := some { f with hp := f.hp - dmg } })
        f.xp) id = { getObj g id with fighter := some { f with hp := f.hp - dmg } } := by
      rw [show id = id from rfl]
      rw [getObj_addXp_ne _ _ _ (by rw [hg1pid]; exact hne)]
      exact getObj_setObj_self _ _ _ (by simpa using hlen)
    have hlen2 : id < (addXpToPlayer
        (setObj g id { getObj g id with fighter := some { f with hp := f.hp - dmg } })
        f.xp).objects.length := by
      rw [length_addXp]
      simpa using hlen
    rw [getObj_monster_death _ _ hlen2, hobjid]
    refine ⟨rfl, rfl, rfl, rfl, ?_, ?_⟩
    · rw [getObj_monster_death_ne _ _ _ hne]
      have hfp1 : (getObj (setObj g id { getObj g id with
          fighter := some { f with hp := f.hp - dmg } }) g.player_id).fighter = some fp := by
        rw [getObj_setObj_ne _ _ _ _ hne]
        exact hfp
      have := getObj_addXp_self
        (setObj g id { getObj g id with fighter := some { f with hp := f.hp - dmg } })
        f.xp fp hfp1 (by simpa using hplen)
      rw [show (setObj g id { getObj g id with
          fighter := some { f with hp := f.hp - dmg } }).player_id = g.player_id from rfl] at this
      rw [this]
    · rw [state_monster_death, state_addXp]
      rfl
  · intro hpe htag
    subst htag
    have hred : take_damage id dmg g =
        player_death id
          (setObj g id { getObj g id with fighter := some { f with hp := f.hp - dmg } }) := by
      simp only [take_damage, hf, if_pos hdmg, hdth, if_pos hkill, deathCallback]
      rw [if_neg (fun hcon => hcon hpe)]
    rw [hred]
    have hob := getObj_player_death id
      (setObj g id { getObj g id with fighter := some { f with hp := f.hp - dmg } })
      (by simpa using hlen)
    rw [hob, getObj_setObj_self _ _ _ (by simpa using hlen)]
    exact ⟨state_player_death _ _, rfl, rfl, rfl⟩

def c2PlayerFighter : Fighter :=
  { base_max_hp := 100, hp := 30, base_defense := 1, base_power := 2, xp := 10,
    death := some DeathCallback.Player }

def c2OrcFighter : Fighter :=
  { base_max_hp := 20, hp := 20, base_defense := 0, base_power := 4, xp := 35,
    death := some DeathCallback.Monster }

def c2Game : Game :=
  { emptyGame with objects :=
      [{ Object.new 0 0 '@' "player" Color.white true with
         level := 1, fighter := some c2PlayerFighter },
       { Object.new 1 0 'o' "orc" Color.desaturatedGreen true with
         fighter := some c2OrcFighter }] }

/-- C2 counterexample: a lethal hit on the player sets the Death state but
leaves the player's Fighter present, the name "player" and blocks = true — the
claimed universal death transform (strip Fighter/AI, clear blocks, rename to
remains-of) does not run for the Player tag. -/
theorem c2_player_death_counterexample :
    (getObj c2Game 0).fighter = some c2PlayerFighter ∧
    c2PlayerFighter.death = some DeathCallback.Player ∧
    c2PlayerFighter.hp - 50 ≤ 0 ∧
    (take_damage 0 50 c2Game).state = GameState.Death ∧
    (getObj (take_damage 0 50 c2Game) 0).fighter ≠ none ∧
    (getObj (take_damage 0 50 c2Game) 0).name = "player" ∧
    (getObj (take_damage 0 50 c2Game) 0).blocks = true := by
  refine ⟨by decide, by decide, by decide, by decide, by decide, by decide, by decide⟩

/-- Witness for C2 at a lethal strike on the orc and one on the player. -/
theorem c2_death_transform_amended_witness :
    ((getObj (take_damage 1 25 c2Game) 1).fighter = none ∧
     (getObj (take_damage 1 25 c2Game) 1).ai = none ∧
     (getObj (take_damage 1 25 c2Game) 1).blocks = false ∧
     (getObj (take_damage 1 25 c2Game) 1).name =
       "remains of " ++ (getObj c2Game 1).name ∧
     (getObj (take_damage 1 25 c2Game) c2Game.player_id).fighter =
       some { c2PlayerFighter with xp := c2PlayerFighter.xp + c2OrcFighter.xp } ∧
     (take_damage 1 25 c2Game).state = c2Game.state) ∧
    ((take_damage 0 50 c2Game).state = GameState.Death ∧
     (getObj (take_damage 0 50 c2Game) 0).fighter =
       some { c2PlayerFighter with hp := c2PlayerFighter.hp - 50 } ∧
     (getObj (take_damage 0 50 c2Game) 0).name = (getObj c2Game 0).name ∧
     (getObj (take_damage 0 50 c2Game) 0).blocks = (getObj c2Game 0).blocks) :=
  ⟨(c2_death_transform_amended c2Game 1 25 c2OrcFighter c2PlayerFighter
      DeathCallback.Monster (by decide) (by decide) (by decide) (by decide)
      (by decide) (by decide)).1 (by decide) rfl (by decide),
   (c2_death_transform_amended c2Game 0 50 c2PlayerFighter c2PlayerFighter
      DeathCallback.Player (by decide) (by decide) (by decide) (by decide)
      (by decide) (by decide)).2 rfl rfl⟩

@[simp]
theorem getObj_invUpdate (g : Game) (inv : List Nat) (id : Nat) :
    getObj { g with inventory := inv } id = getObj g id := rfl

@[simp]
theorem objects_invUpdate (g : Game) (inv : List Nat) :
    ({ g with inventory := inv } : Game).objects = g.objects := rfl

theorem inventory_dequip (id : Nat) (g : Game) :
    (dequip id g).inventory = g.inventory := by
  unfold dequip
  split
  · split <;> rfl
  · rfl

theorem inventory_equipSetFlag (id : Nat) (g : Game) :
    (equipSetFlag id g).inventory = g.inventory := by
  unfold equipSetFlag
  split <;> rfl

theorem inventory_equip (id : Nat) (g : Game) :
    (equip id g).inventory = g.inventory := by
  unfold equip
  rw [inventory_equipSetFlag]
  split
  · rw [inventory_dequip]
  · rfl

@[simp]
theorem length_dequip (j : Nat) (g : Game) :
    (dequip j g).objects.length = g.objects.length := by
  unfold dequip
  split
  · split
    · simp
    · rfl
  · rfl

@[simp]
theorem length_equipSetFlag (id : Nat) (g : Game) :
    (equipSetFlag id g).objects.length = g.objects.length := by
  unfold equipSetFlag
  split
  · simp
  · rfl

@[simp]
theorem length_equip (id : Nat) (g : Game) :
    (equip id g).objects.length = g.objects.length := by
  unfold equip
  rw [length_equipSetFlag]
  split
  · rw [length_dequip]
  · rfl

theorem on_ground_dequip (j id : Nat) (g : Game) :
    (getObj (dequip j g) id).on_ground = (getObj g id).on_ground := by
  unfold dequip
  split
  · split
    · by_cases hj : j = id
      · subst hj
        by_cases hb : j < g.objects.length
        · rw [getObj_setObj_self _ _ _ (by simpa using hb)]
          rfl
        · rw [getObj, setObj_oob _ _ _ (by simpa using hb)]
          rfl
      · rw [getObj_setObj_ne _ _ _ _ hj]
        rfl
    · rfl
  · rfl

theorem on_ground_equipSetFlag (id : Nat) (g : Game) :
    (getObj (equipSetFlag id g) id).on_ground = (getObj g id).on_ground := by
  unfold equipSetFlag
  split
  · by_cases hb : id < g.objects.length
    · rw [getObj_setObj_self _ _ _ (by simpa using hb)]
      rfl
    · rw [getObj, setObj_oob _ _ _ (by simpa using hb)]
      rfl
  · rfl

theorem on_ground_equip (id : Nat) (g : Game) :
    (getObj (equip id g) id).on_ground = (getObj g id).on_ground := by
  unfold equip
  rw [on_ground_equipSetFlag]
  split
  · rw [on_ground_dequip]
  · rfl

/-- equipSetFlag stores the is_equipped mark on its in-bounds target. -/
theorem getObj_equipSetFlag (id : Nat) (g : Game) (e : Equipment)
    (he : (getObj g id).equipment = some e) (h : id < g.objects.length) :
    getObj (equipSetFlag id g) id =
      { getObj g id with equipment := some { e with is_equipped := true } } := by
  unfold equipSetFlag
  rw [he]
  rw [getObj_setObj_self _ _ _ (by simpa using h)]
  rfl

/-- equip with no occupant in the slot reduces to the marking half alone. -/
theorem equip_no_occupant (id : Nat) (g : Game) (e : Equipment)
    (he : (getObj g id).equipment = some e)
    (hocc : get_equipped_in_slot e.slot g.inventory g.objects = none) :
    equip id g = equipSetFlag id g := by
  simp only [equip, he, hocc]

/-- In the non-full branch, pick_item_up appends the id to the inventory
whatever the auto-equip outcome. -/
theorem inventory_pick_item_up (g : Game) (id : Nat)
    (hid : id < g.objects.length) (h : g.inventory.length < 26) :
    (pick_item_up id g).inventory = g.inventory ++ [id] := by
  have hno : ¬ g.inventory.length ≥ 26 := by omega
  cases he : (getObj g id).equipment with
  | none =>
    simp only [pick_item_up, if_neg hno, getObj_invUpdate, getObj_message,
      getObj_setObj_self, hid, he]
    rfl
  | some e =>
    simp only [pick_item_up, if_neg hno, getObj_invUpdate, getObj_message,
      getObj_setObj_self, hid, he]
    split
    · rw [inventory_equip]
      rfl
    · rfl

/-- C5: pick_item_up at 26 inventory entries emits the inventory-full message
and mutates nothing; below 26 it clears on_ground, appends the id, and
auto-equips exactly when the slot lookup over the updated inventory finds no
equipped occupant; the inventory never grows beyond 26 entries. -/
theorem c5_pick_item_up (g : Game) (id : Nat) (hid : id < g.objects.length) :
    (g.inventory.length ≥ 26 →
      (pick_item_up id g).objects = g.objects ∧
      (pick_item_up id g).inventory = g.inventory ∧
      (pick_item_up id g).messages =
        (g.message ("Your inventory is full, cannot pick up " ++
          (getObj g id).name ++ ".") Color.red).messages) ∧
    (g.inventory.length < 26 →
      (pick_item_up id g).inventory = g.inventory ++ [id] ∧
      (getObj (pick_item_up id g) id).on_ground = false ∧
      (∀ e, (getObj g id).equipment = some e →
        get_equipped_in_slot e.slot (g.inventory ++ [id])
          (g.objects.set id { getObj g id with on_ground := false }) = none →
        (getObj (pick_item_up id g) id).equipment =
          some { e with is_equipped := true }) ∧
      (∀ e, (getObj g id).equipment = some e →
        (get_equipped_in_slot e.slot (g.inventory ++ [id])
          (g.objects.set id { getObj g id with on_ground := false })).isSome = true →
        (getObj (pick_item_up id g) id).equipment = some e)) ∧
    (g.inventory.length ≤ 26 → (pick_item_up id g).inventory.length ≤ 26) := by
  refine ⟨?_, ?_, ?_⟩
  · intro h
    simp only [pick_item_up, if_pos h]
    refine ⟨?_, ?_, ?_⟩ <;> first | rfl | trivial
  · intro h
    have hno : ¬ g.inventory.length ≥ 26 := by omega
    refine ⟨inventory_pick_item_up g id hid h, ?_, ?_, ?_⟩
    · cases he : (getObj g id).equipment with
      | none =>
        simp only [pick_item_up, if_neg hno, getObj_invUpdate, getObj_message,
          getObj_setObj_self, hid, he]
      | some e =>
        simp only [pick_item_up, if_neg hno, getObj_invUpdate, getObj_message,
          getObj_setObj_self, hid, he]
        split
        · rw [on_ground_equip]
          simp only [getObj_invUpdate, getObj_message, getObj_setObj_self, hid]
        · simp only [getObj_invUpdate, getObj_message, getObj_setObj_self, hid]
    · intro e he hocc
      simp only [he] at hocc
      simp only [pick_item_up, if_neg hno, getObj_invUpdate, getObj_message,
        getObj_setObj_self, hid, he]
      split
      · rw [equip_no_occupant id _ e
          (by simp only [getObj_invUpdate, getObj_message, getObj_setObj_self,
                hid, he])
          hocc]
        rw [getObj_equipSetFlag id _ e
          (by simp only [getObj_invUpdate, getObj_message, getObj_setObj_self,
                hid, he])
          (by simpa using hid)]
      · rename_i hcon
        exact absurd
          (by simp only [inventory_message, inventory_setObj, objects_message,
                objects_setObj]
              rw [hocc]
              rfl)
          hcon
    · intro e he hsome
      simp only [he] at hsome
      simp only [pick_item_up, if_neg hno, getObj_invUpdate, getObj_message,
        getObj_setObj_self, hid, he]
      obtain ⟨v, hv⟩ := Option.isSome_iff_exists.mp hsome
      split
      · rename_i hcon
        rw [Option.isNone_iff_eq_none] at hcon
        simp only [inventory_message, inventory_setObj, objects_message,
          objects_setObj] at hcon
        exact Option.noConfusion (hcon.symm.trans hv)
      · simp only [getObj_invUpdate, getObj_message, getObj_setObj_self, hid, he]
  · intro h
    by_cases hfull : g.inventory.length ≥ 26
    · simp only [pick_item_up, if_pos hfull]
      exact h
    · rw [inventory_pick_item_up g id hid (by omega)]
      simp only [List.length_append, List.length_singleton]
      omega

def c5Sword : Equipment :=
  { slot := "right hand", is_equipped := false, power_bonus := 3,
    defense_bonus := 0, max_hp_bonus := 0 }

def c5Item : Object :=
  { Object.new 2 0 '/' "sword" Color.sky false with
    item := some Item.None, equipment := some c5Sword }

def c5Game : Game :=
  { emptyGame with objects := [Object.new 0 0 '@' "player" Color.white true, c5Item] }

def c5FullGame : Game :=
  { c5Game with inventory := List.replicate 26 1 }

/-- Witness for C5: a refused 27th pick-up, and a successful pick-up that
auto-equips an unworn sword. -/
theorem c5_pick_item_up_witness :
    ((pick_item_up 1 c5FullGame).objects = c5FullGame.objects ∧
     (pick_item_up 1 c5FullGame).inventory = c5FullGame.inventory ∧
     (pick_item_up 1 c5FullGame).messages =
       (c5FullGame.message ("Your inventory is full, cannot pick up " ++
         (getObj c5FullGame 1).name ++ ".") Color.red).messages) ∧
    ((pick_item_up 1 c5Game).inventory = c5Game.inventory ++ [1] ∧
     (getObj (pick_item_up 1 c5Game) 1).on_ground = false ∧
     (getObj (pick_item_up 1 c5Game) 1).equipment =
       some { c5Sword with is_equipped := true }) ∧
    (pick_item_up 1 c5FullGame).inventory.length ≤ 26 :=
  ⟨(c5_pick_item_up c5FullGame 1 (by decide)).1 (by decide),
   ⟨((c5_pick_item_up c5Game 1 (by decide)).2.1 (by decide)).1,
    ((c5_pick_item_up c5Game 1 (by decide)).2.1 (by decide)).2.1,
    ((c5_pick_item_up c5Game 1 (by decide)).2.1 (by decide)).2.2.1 c5Sword
      (by decide) (by decide)⟩,
   (c5_pick_item_up c5FullGame 1 (by decide)).2.2 (by decide)⟩

theorem equipment_some_lt (g : Game) (j : Nat) (e : Equipment)
    (h : (getObj g j).equipment = some e) : j < g.objects.length := by
  by_cases hb : j < g.objects.length
  · exact hb
  · rw [getObj_oob g j hb] at h
    simp [defaultObject, Object.new] at h

theorem getObj_dequip_ne (j i : Nat) (g : Game) (h : j ≠ i) :
    getObj (dequip j g) i = getObj g i := by
  unfold dequip
  split
  · split
    · rw [getObj_setObj_ne _ _ _ _ h]
      rfl
    · rfl
  · rfl

theorem getObj_dequip_self (j : Nat) (g : Game) (e : Equipment)
    (he : (getObj g j).equipment = some e) (heq : e.is_equipped = true) :
    getObj (dequip j g) j =
      { getObj g j with equipment := some { e with is_equipped := false } } := by
  simp only [dequip, he]
  rw [if_pos heq]
  rw [getObj_setObj_self _ _ _ (by simpa using equipment_some_lt g j e he)]
  rfl

theorem equippedInSlot_getObj (g : Game) (i : Nat) (s : String) :
    equippedInSlot g.objects i s =
      (match (getObj g i).equipment with
       | some e => e.is_equipped && e.slot == s
       | none => false) := rfl

theorem equippedInSlot_dequip_cases (j i : Nat) (s : String) (g : Game)
    (h : equippedInSlot (dequip j g).objects i s = true) :
    i ≠ j ∧ equippedInSlot g.objects i s = true := by
  by_cases hji : i = j
  · subst hji
    exfalso
    rw [equippedInSlot_getObj] at h
    cases he : (getObj g i).equipment with
    | none =>
      have : getObj (dequip i g) i = getObj g i := by
        unfold dequip
        rw [he]
      rw [this, he] at h
      simp at h
    | some e =>
      by_cases heq : e.is_equipped = true
      · rw [getObj_dequip_self i g e he heq] at h
        simp at h
      · have : getObj (dequip i g) i = getObj g i := by
          simp only [dequip, he]
          rw [if_neg heq]
        rw [this, he] at h
        simp at h
        exact heq h.1
  · refine ⟨hji, ?_⟩
    rw [equippedInSlot_getObj] at h ⊢
    rw [getObj_dequip_ne j i g (fun hc => hji hc.symm)] at h
    exact h

theorem getObj_equipSetFlag_ne (id i : Nat) (g : Game) (h : id ≠ i) :
    getObj (equipSetFlag id g) i = getObj g i := by
  unfold equipSetFlag
  split
  · rw [getObj_setObj_ne _ _ _ _ h]
    rfl
  · rfl

theorem equipSetFlag_none (id : Nat) (g : Game)
    (he : (getObj g id).equipment = none) : equipSetFlag id g = g := by
  unfold equipSetFlag
  rw [he]

theorem equippedInSlot_equipSetFlag_self (id : Nat) (g : Game) (e : Equipment)
    (s : String) (he : (getObj g id).equipment = some e) :
    equippedInSlot (equipSetFlag id g).objects id s = (e.slot == s) := by
  rw [equippedInSlot_getObj]
  rw [getObj_equipSetFlag id g e he (equipment_some_lt g id e he)]
  simp

theorem equippedInSlot_equipSetFlag_ne (id i : Nat) (s : String) (g : Game)
    (h : id ≠ i) :
    equippedInSlot (equipSetFlag id g).objects i s =
      equippedInSlot g.objects i s := by
  rw [equippedInSlot_getObj, equippedInSlot_getObj,
    getObj_equipSetFlag_ne id i g h]

/-- At most one equipped entity per slot among the inventory entries. -/
def slotUnique (g : Game) : Prop :=
  ∀ (s : String) (i j : Nat), i ∈ g.inventory → j ∈ g.inventory →
    equippedInSlot g.objects i s = true → equippedInSlot g.objects j s = true →
    i = j

/-- C7: equip preserves the at-most-one-equipped-per-slot invariant over the
inventory, leaves the inventory itself unchanged, and when the slot of the
entity being equipped is occupied by a different equipped entity, that
occupant is dequipped by the same equip call while the new entity ends up
equipped. -/
theorem c7_slot_exclusivity (g : Game) (eid : Nat) (hu : slotUnique g) :
    slotUnique (equip eid g) ∧
    (equip eid g).inventory = g.inventory ∧
    (∀ e old_id, (getObj g eid).equipment = some e →
      get_equipped_in_slot e.slot g.inventory g.objects = some old_id →
      old_id ≠ eid →
      isEquippedObj (getObj (equip eid g) old_id) = false ∧
      (eid < g.objects.length →
        (getObj (equip eid g) eid).equipment =
          some { e with is_equipped := true })) := by
  refine ⟨?_, inventory_equip eid g, ?_⟩
  · intro s i j hi hj his hjs
    rw [inventory_equip] at hi hj
    cases he : (getObj g eid).equipment with
    | some e =>
      cases hocc : get_equipped_in_slot e.slot g.inventory g.objects with
      | none =>
        have hred : equip eid g = equipSetFlag eid g :=
          equip_no_occupant eid g e he hocc
        rw [hred] at his hjs
        by_cases hii : i = eid <;> by_cases hjj : j = eid
        · rw [hii, hjj]
        · rw [hii] at his hi
          rw [equippedInSlot_equipSetFlag_self eid g e s he] at his
          have hs : e.slot = s := by simpa using his
          subst hs
          rw [equippedInSlot_equipSetFlag_ne eid j _ g
            (fun hc => hjj hc.symm)] at hjs
          have hocc2 : List.find? (fun k => equippedInSlot g.objects k e.slot)
              g.inventory = none := hocc
          exact absurd hjs (by simpa using List.find?_eq_none.mp hocc2 j hj)
        · rw [hjj] at hjs hj
          rw [equippedInSlot_equipSetFlag_self eid g e s he] at hjs
          have hs : e.slot = s := by simpa using hjs
          subst hs
          rw [equippedInSlot_equipSetFlag_ne eid i _ g
            (fun hc => hii hc.symm)] at his
          have hocc2 : List.find? (fun k => equippedInSlot g.objects k e.slot)
              g.inventory = none := hocc
          exact absurd his (by simpa using List.find?_eq_none.mp hocc2 i hi)
        · rw [equippedInSlot_equipSetFlag_ne eid i _ g
            (fun hc => hii hc.symm)] at his
          rw [equippedInSlot_equipSetFlag_ne eid j _ g
            (fun hc => hjj hc.symm)] at hjs
          exact hu s i j hi hj his hjs
      | some old =>
        have hred : equip eid g = equipSetFlag eid (dequip old g) := by
          simp only [equip, he, hocc]
        have hocc2 : List.find? (fun k => equippedInSlot g.objects k e.slot)
            g.inventory = some old := hocc
        have hold : equippedInSlot g.objects old e.slot = true := by
          simpa using List.find?_some hocc2
        have hold_mem : old ∈ g.inventory := List.mem_of_find?_eq_some hocc2
        rw [hred] at his hjs
        by_cases hii : i = eid <;> by_cases hjj : j = eid
        · rw [hii, hjj]
        · rw [hii] at his hi
          have hslot : e.slot = s := by
            by_cases hoi : old = eid
            · have he' : (getObj g old).equipment = some e := by
                rw [hoi]
                exact he
              have heq : e.is_equipped = true := by
                rw [equippedInSlot_getObj, he'] at hold
                simpa using hold
              have he1 : (getObj (dequip old g) eid).equipment =
                  some { e with is_equipped := false } := by
                rw [← hoi]
                rw [getObj_dequip_self old g e he' heq]
              rw [equippedInSlot_equipSetFlag_self eid _ _ s he1] at his
              simpa using his
            · have he1 : (getObj (dequip old g) eid).equipment = some e := by
                rw [getObj_dequip_ne old eid g hoi]
                exact he
              rw [equippedInSlot_equipSetFlag_self eid _ _ s he1] at his
              simpa using his
          subst hslot
          rw [equippedInSlot_equipSetFlag_ne eid j _ _
            (fun hc => hjj hc.symm)] at hjs
          obtain ⟨hjo, hjg⟩ := equippedInSlot_dequip_cases old j e.slot g hjs
          exact absurd (hu e.slot j old hj hold_mem hjg hold) hjo
        · rw [hjj] at hjs hj
          have hslot : e.slot = s := by
            by_cases hoi : old = eid
            · have he' : (getObj g old).equipment = some e := by
                rw [hoi]
                exact he
              have heq : e.is_equipped = true := by
                rw [equippedInSlot_getObj, he'] at hold
                simpa using hold
              have he1 : (getObj (dequip old g) eid).equipment =
                  some { e with is_equipped := false } := by
                rw [← hoi]
                rw [getObj_dequip_self old g e he' heq]
              rw [equippedInSlot_equipSetFlag_self eid _ _ s he1] at hjs
              simpa using hjs
            · have he1 : (getObj (dequip old g) eid).equipment = some e := by
                rw [getObj_dequip_ne old eid g hoi]
                exact he
              rw [equippedInSlot_equipSetFlag_self eid _ _ s he1] at hjs
              simpa using hjs
          subst hslot
          rw [equippedInSlot_equipSetFlag_ne eid i _ _
            (fun hc => hii hc.symm)] at his
          obtain ⟨hio, hig⟩ := equippedInSlot_dequip_cases old i e.slot g his
          exact absurd (hu e.slot i old hi hold_mem hig hold) hio
        · rw [equippedInSlot_equipSetFlag_ne eid i _ _
            (fun hc => hii hc.symm)] at his
          rw [equippedInSlot_equipSetFlag_ne eid j _ _
            (fun hc => hjj hc.symm)] at hjs
          obtain ⟨_, hig⟩ := equippedInSlot_dequip_cases old i s g his
          obtain ⟨_, hjg⟩ := equippedInSlot_dequip_cases old j s g hjs
          exact hu s i j hi hj hig hjg
    | none =>
      cases hocc : get_equipped_in_slot "" g.inventory g.objects with
      | none =>
        have hred : equip eid g = g := by
          simp only [equip, he, hocc]
          exact equipSetFlag_none eid g he
        rw [hred] at his hjs
        exact hu s i j hi hj his hjs
      | some old =>
        have hocc2 : List.find? (fun k => equippedInSlot g.objects k "")
            g.inventory = some old := hocc
        have hold : equippedInSlot g.objects old "" = true := by
          simpa using List.find?_some hocc2
        have hne : old ≠ eid := by
          intro hcon
          rw [hcon, equippedInSlot_getObj, he] at hold
          simp at hold
        have he1 : (getObj (dequip old g) eid).equipment = none := by
          rw [getObj_dequip_ne old eid g hne]
          exact he
        have hred : equip eid g = dequip old g := by
          simp only [equip, he, hocc]
          exact equipSetFlag_none eid _ he1
        rw [hred] at his hjs
        obtain ⟨_, hig⟩ := equippedInSlot_dequip_cases old i s g his
        obtain ⟨_, hjg⟩ := equippedInSlot_dequip_cases old j s g hjs
        exact hu s i j hi hj hig hjg
  · intro e old_id he hocc hne
    have hred : equip eid g = equipSetFlag eid (dequip old_id g) := by
      simp only [equip, he, hocc]
    have hold : equippedInSlot g.objects old_id e.slot = true := by
      have hocc2 : List.find? (fun k => equippedInSlot g.objects k e.slot)
          g.inventory = some old_id := hocc
      simpa using List.find?_some hocc2
    have hsome : ∃ e2, (getObj g old_id).equipment = some e2 ∧
        e2.is_equipped = true := by
      rw [equippedInSlot_getObj] at hold
      cases he2 : (getObj g old_id).equipment with
      | none =>
        rw [he2] at hold
        simp at hold
      | some e2 =>
        rw [he2] at hold
        simp only [Bool.and_eq_true] at hold
        exact ⟨e2, rfl, hold.1⟩
    obtain ⟨e2, he2, he2q⟩ := hsome
    constructor
    · rw [hred, getObj_equipSetFlag_ne eid old_id _ (fun hc => hne hc.symm),
        getObj_dequip_self old_id g e2 he2 he2q]
      rfl
    · intro hb
      have he1 : (getObj (dequip old_id g) eid).equipment = some e := by
        rw [getObj_dequip_ne old_id eid g hne]
        exact he
      rw [hred, getObj_equipSetFlag eid _ e he1 (by simpa using hb)]

def c7Old : Equipment :=
  { slot := "right hand", is_equipped := true, power_bonus := 2,
    defense_bonus := 0, max_hp_bonus := 0 }

def c7New : Equipment :=
  { slot := "right hand", is_equipped := false, power_bonus := 3,
    defense_bonus := 0, max_hp_bonus := 0 }

def c7Game : Game :=
  { emptyGame with
    objects := [Object.new 0 0 '@' "player" Color.white true,
      { Object.new 0 0 '-' "dagger" Color.sky false with
        item := some Item.None, equipment := some c7Old },
      { Object.new 0 0 '/' "sword" Color.sky false with
        item := some Item.None, equipment := some c7New }],
    inventory := [1, 2] }

theorem c7GameSlotUnique : slotUnique c7Game := by
  intro s i j hi hj his hjs
  have h2 : ∀ s2, equippedInSlot c7Game.objects 2 s2 = false := fun _ => rfl
  have hi' : i = 1 ∨ i = 2 := by simpa [c7Game, emptyGame] using hi
  have hj' : j = 1 ∨ j = 2 := by simpa [c7Game, emptyGame] using hj
  rcases hi' with hi' | hi' <;> rcases hj' with hj' | hj' <;> subst hi' <;> subst hj'
  · rfl
  · rw [h2 s] at hjs
    exact Bool.noConfusion hjs
  · rw [h2 s] at his
    exact Bool.noConfusion his
  · rfl

/-- Witness for C7: equipping the sword into the right hand dequips the
occupying dagger as part of the same call and marks the sword equipped. -/
theorem c7_slot_exclusivity_witness :
    (equip 2 c7Game).inventory = c7Game.inventory ∧
    isEquippedObj (getObj (equip 2 c7Game) 1) = false ∧
    (getObj (equip 2 c7Game) 2).equipment =
      some { c7New with is_equipped := true } :=
  ⟨(c7_slot_exclusivity c7Game 2 c7GameSlotUnique).2.1,
   ((c7_slot_exclusivity c7Game 2 c7GameSlotUnique).2.2 c7New 1
      (by decide) (by decide) (by decide)).1,
   ((c7_slot_exclusivity c7Game 2 c7GameSlotUnique).2.2 c7New 1
      (by decide) (by decide) (by decide)).2 (by decide)⟩

@[simp]
theorem length_move_by (id : Nat) (dx dy : Int) (g : Game) :
    (move_by id dx dy g).objects.length = g.objects.length := by
  simp only [move_by]
  split
  · rfl
  · simp

theorem gen_range_offsets (seed : Nat) :
    gen_range (-1) 1 seed = -1 ∨ gen_range (-1) 1 seed = 0 := by
  unfold gen_range
  have h2 : (1 : Int) - -1 = 2 := by norm_num
  rw [h2]
  omega

/-- One confused AI step with a positive countdown: the offsets are drawn,
the countdown decrements, the saved prior AI is preserved. -/
theorem ai_step_confused_pos (basic : MonsterAI → Game → Game) (id : Nat)
    (g : Game) (s1 s2 : Nat) (n : Int) (saved : Option MonsterAI)
    (hlen : id < g.objects.length)
    (hai : (getObj g id).ai = some (MonsterAI.mk id saved (.Confused n)))
    (hn : 0 < n) :
    (getObj (ai_step basic id g s1 s2) id).ai =
      some (MonsterAI.mk id saved (.Confused (n - 1))) ∧
    (ai_step basic id g s1 s2).objects.length = g.objects.length := by
  have hred : ai_step basic id g s1 s2 =
      (let g0 := setObj g id { getObj g id with ai := none }
       let g1 := move_by id (gen_range (-1) 1 s1) (gen_range (-1) 1 s2) g0
       setObj g1 id { getObj g1 id with
         ai := some (MonsterAI.mk id saved (.Confused (n - 1))) }) := by
    simp only [ai_step, hai, take_turn, MonsterAI.ai_type, monster_confused_ai,
      if_pos hn, Option.or]
  rw [hred]
  constructor
  · rw [getObj_setObj_self _ _ _ (by simp [hlen])]
  · simp

/-- One confused AI step with the countdown spent and a saved prior AI: the
prior AI is restored and the no-longer-confused message is emitted. -/
theorem ai_step_confused_restore (basic : MonsterAI → Game → Game) (id : Nat)
    (g : Game) (s1 s2 : Nat) (n : Int) (prior : MonsterAI)
    (hlen : id < g.objects.length)
    (hai : (getObj g id).ai = some (MonsterAI.mk id (some prior) (.Confused n)))
    (hn : ¬ 0 < n) :
    (getObj (ai_step basic id g s1 s2) id).ai = some prior ∧
    (ai_step basic id g s1 s2).messages =
      (g.message ("The " ++ (getObj g id).name ++ " is no longer confused!")
        Color.red).messages := by
  have hred : ai_step basic id g s1 s2 =
      (let g0 := setObj g id { getObj g id with ai := none }
       let g1 := g0.message ("The " ++ (getObj g0 id).name ++
         " is no longer confused!") Color.red
       setObj g1 id { getObj g1 id with ai := some prior }) := by
    simp only [ai_step, hai, take_turn, MonsterAI.ai_type, monster_confused_ai,
      if_neg hn, Option.or]
  rw [hred]
  constructor
  · rw [getObj_setObj_self _ _ _ (by simp [hlen])]
  · simp only [messages_setObj]
    have hname : (getObj (setObj g id { getObj g id with ai := none }) id).name =
        (getObj g id).name := by
      rw [getObj_setObj_self _ _ _ (by simpa using hlen)]
    rw [hname]
    rfl

/-- One confused AI step with the countdown spent and no saved prior AI: the
take_turn loop in play_game puts the spent Confused AI back instead of
removing it. -/
theorem ai_step_confused_kept (basic : MonsterAI → Game → Game) (id : Nat)
    (g : Game) (s1 s2 : Nat) (n : Int)
    (hlen : id < g.objects.length)
    (hai : (getObj g id).ai = some (MonsterAI.mk id none (.Confused n)))
    (hn : ¬ 0 < n) :
    (getObj (ai_step basic id g s1 s2) id).ai =
      some (MonsterAI.mk id none (.Confused n)) := by
  have hred : ai_step basic id g s1 s2 =
      (let g0 := setObj g id { getObj g id with ai := none }
       let g1 := g0.message ("The " ++ (getObj g0 id).name ++
         " is no longer confused!") Color.red
       setObj g1 id { getObj g1 id with
         ai := some (MonsterAI.mk id none (.Confused n)) }) := by
    simp only [ai_step, hai, take_turn, MonsterAI.ai_type, monster_confused_ai,
      if_neg hn, Option.or]
  rw [hred]
  rw [getObj_setObj_self _ _ _ (by simp [hlen])]

/-- Iterating the AI pass over an entity confused with countdown n and a saved
prior AI for n.toNat + 1 turns restores the prior AI. -/
theorem ai_steps_confused_reverts (basic : MonsterAI → Game → Game) (id : Nat) :
    ∀ (seeds : List (Nat × Nat)) (n : Int) (g : Game) (prior : MonsterAI),
      id < g.objects.length →
      (getObj g id).ai = some (MonsterAI.mk id (some prior) (.Confused n)) →
      seeds.length = n.toNat + 1 →
      (getObj (ai_steps basic id g seeds) id).ai = some prior
  | [], n, g, prior, hlen, hai, hseeds => by
    simp at hseeds
  | (s1, s2) :: rest, n, g, prior, hlen, hai, hseeds => by
    by_cases hn : 0 < n
    · have hstep := ai_step_confused_pos basic id g s1 s2 n (some prior) hlen hai hn
      have hrest : rest.length = (n - 1).toNat + 1 := by
        simp at hseeds
        omega
      have hlen2 : id < (ai_step basic id g s1 s2).objects.length := by
        rw [hstep.2]
        exact hlen
      exact ai_steps_confused_reverts basic id rest (n - 1)
        (ai_step basic id g s1 s2) prior hlen2 hstep.1 hrest
    · have hzero : n.toNat = 0 := by omega
      have hrest : rest = [] := by
        rw [hzero] at hseeds
        simpa using hseeds
      subst hrest
      exact (ai_step_confused_restore basic id g s1 s2 n prior hlen hai hn).1

/-- C6 (amended): a Confused(n) entity with n > 0 moves by per-axis offsets
drawn from the two-value set (-1, 0) and transitions to Confused(n-1); when
the countdown is spent, the next turn emits the no-longer-confused message and
restores the saved prior AI — but when no prior AI was saved the entity keeps
the spent Confused AI (the take_turn loop restores the mutated self) instead
of losing AI entirely; with a saved prior AI and countdown n, the entity
reverts to it after exactly n moving turns plus one restoring turn. -/
theorem c6_confused_ai_amended (basic : MonsterAI → Game → Game) (g : Game)
    (id s1 s2 : Nat) (n : Int) (saved : Option MonsterAI) (prior : MonsterAI)
    (seeds : List (Nat × Nat))
    (hlen : id < g.objects.length)
    (hai : (getObj g id).ai = some (MonsterAI.mk id saved (.Confused n))) :
    (∀ seed, gen_range (-1) 1 seed = -1 ∨ gen_range (-1) 1 seed = 0) ∧
    (0 < n →
      (getObj (ai_step basic id g s1 s2) id).ai =
        some (MonsterAI.mk id saved (.Confused (n - 1))) ∧
      (∀ g0, (monster_confused_ai (MonsterAI.mk id saved (.Confused n)) g0
          s1 s2).2 =
        move_by id (gen_range (-1) 1 s1) (gen_range (-1) 1 s2) g0)) ∧
    (¬ 0 < n → saved = some prior →
      (getObj (ai_step basic id g s1 s2) id).ai = some prior ∧
      (ai_step basic id g s1 s2).messages =
        (g.message ("The " ++ (getObj g id).name ++ " is no longer confused!")
          Color.red).messages) ∧
    (¬ 0 < n → saved = none →
      (getObj (ai_step basic id g s1 s2) id).ai =
        some (MonsterAI.mk id none (.Confused n))) ∧
    (saved = some prior → seeds.length = n.toNat + 1 →
      (getObj (ai_steps basic id g seeds) id).ai = some prior) := by
  refine ⟨gen_range_offsets, ?_, ?_, ?_, ?_⟩
  · intro hn
    refine ⟨(ai_step_confused_pos basic id g s1 s2 n saved hlen hai hn).1, ?_⟩
    intro g0
    simp only [monster_confused_ai, if_pos hn]
  · intro hn hsaved
    rw [hsaved] at hai
    exact ai_step_confused_restore basic id g s1 s2 n prior hlen hai hn
  · intro hn hsaved
    rw [hsaved] at hai
    exact ai_step_confused_kept basic id g s1 s2 n hlen hai hn
  · intro hsaved hseeds
    rw [hsaved] at hai
    exact ai_steps_confused_reverts basic id seeds n g prior hlen hai hseeds

def c6Orc : Object :=
  { Object.new 3 3 'o' "orc" Color.desaturatedGreen true with
    fighter := some { base_max_hp := 20, hp := 20, base_defense := 0,
                      base_power := 4, xp := 35,
                      death := some DeathCallback.Monster },
    ai := some (MonsterAI.mk 0 none (MonsterAIType.Confused 0)) }

def c6Game : Game :=
  { emptyGame with objects := [c6Orc] }

/-- C6 counterexample: an entity whose Confused countdown is spent and whose
saved prior AI is None keeps a (spent) Confused AI after its turn: the claimed
removal of the AI capability never happens, because play_game stores
new_ai.or(Some(old_ai)). -/
theorem c6_ai_not_removed_counterexample :
    (getObj c6Game 0).ai =
      some (MonsterAI.mk 0 none (MonsterAIType.Confused 0)) ∧
    (getObj (ai_step (fun _ g0 => g0) 0 c6Game 0 0) 0).ai ≠ none := by
  refine ⟨rfl, ?_⟩
  intro hcon
  rw [show (getObj (ai_step (fun _ g0 => g0) 0 c6Game 0 0) 0).ai =
      some (MonsterAI.mk 0 none (MonsterAIType.Confused 0)) from rfl] at hcon
  exact Option.noConfusion hcon

def c6Prior : MonsterAI := MonsterAI.mk 0 none MonsterAIType.Basic

def c6WitOrc : Object :=
  { c6Orc with ai := some (MonsterAI.mk 0 (some c6Prior)
      (MonsterAIType.Confused 2)) }

def c6WitGame : Game :=
  { emptyGame with objects := [c6WitOrc] }

/-- Witness for C6: a countdown-2 confusion decrements on its first turn and
reverts to the saved Basic AI after three turns (two moves, one restore); the
saved-None entity keeps its spent Confused AI. -/
theorem c6_confused_ai_amended_witness :
    (gen_range (-1) 1 7 = -1 ∨ gen_range (-1) 1 7 = 0) ∧
    (getObj (ai_step (fun _ g0 => g0) 0 c6WitGame 0 1) 0).ai =
      some (MonsterAI.mk 0 (some c6Prior) (MonsterAIType.Confused 1)) ∧
    (monster_confused_ai (MonsterAI.mk 0 (some c6Prior)
        (MonsterAIType.Confused 2)) c6WitGame 0 1).2 =
      move_by 0 (gen_range (-1) 1 0) (gen_range (-1) 1 1) c6WitGame ∧
    (getObj (ai_steps (fun _ g0 => g0) 0 c6WitGame [(0, 1), (2, 3), (4, 5)]) 0).ai =
      some c6Prior ∧
    (getObj (ai_step (fun _ g0 => g0) 0 c6Game 0 0) 0).ai =
      some (MonsterAI.mk 0 none (MonsterAIType.Confused 0)) :=
  ⟨(c6_confused_ai_amended (fun _ g0 => g0) c6WitGame 0 0 1 2
      (some c6Prior) c6Prior [] (by decide) rfl).1 7,
   ((c6_confused_ai_amended (fun _ g0 => g0) c6WitGame 0 0 1 2
      (some c6Prior) c6Prior [] (by decide) rfl).2.1 (by decide)).1,
   ((c6_confused_ai_amended (fun _ g0 => g0) c6WitGame 0 0 1 2
      (some c6Prior) c6Prior [] (by decide) rfl).2.1 (by decide)).2 c6WitGame,
   (c6_confused_ai_amended (fun _ g0 => g0) c6WitGame 0 0 1 2
      (some c6Prior) c6Prior [(0, 1), (2, 3), (4, 5)] (by decide) rfl).2.2.2.2
      rfl (by decide),
   (c6_confused_ai_amended (fun _ g0 => g0) c6Game 0 0 0 0
      none c6Prior [] (by decide) rfl).2.2.2.1 (by decide) rfl⟩

theorem mem_withIdx : ∀ (l : List Object) (i m : Nat) (o : Object),
    (m, o) ∈ withIdx i l → ∃ k, l[k]? = some o ∧ m = i + k
  | [], i, m, o, h => by simp [withIdx] at h
  | a :: l, i, m, o, h => by
    simp only [withIdx, List.mem_cons] at h
    rcases h with h | h
    · rw [Prod.mk.injEq] at h
      refine ⟨0, ?_, by omega⟩
      rw [← h.2]
      simp
    · obtain ⟨k, hk, hm⟩ := mem_withIdx l (i + 1) m o h
      exact ⟨k + 1, by simpa using hk, by omega⟩

theorem withIdx_mem : ∀ (l : List Object) (i k : Nat) (o : Object),
    l[k]? = some o → (i + k, o) ∈ withIdx i l
  | [], _, k, o, h => by simp at h
  | a :: l, i, 0, o, h => by
    simp only [List.getElem?_cons_zero, Option.some.injEq] at h
    simp [withIdx, h]
  | a :: l, i, k + 1, o, h => by
    simp only [List.getElem?_cons_succ] at h
    have hmem := withIdx_mem l (i + 1) k o h
    simp only [withIdx, List.mem_cons]
    right
    have heq : i + (k + 1) = (i + 1) + k := by omega
    rw [heq]
    exact hmem

/-- Accumulator invariant of the closest-monster scan: the running squared
distance never grows, it is a lower bound of every candidate in the list, and
the result is either the starting accumulator or a candidate from the list
whose squared distance it carries, strictly below the starting bound. -/
theorem closestScan_spec (px py : Int) (pid : Nat) (fov : Int → Int → Bool) :
    ∀ (L : List (Nat × Object)) (best0 : Option Nat) (s0 : Int),
      (closestScan px py pid fov L (best0, s0)).2 ≤ s0 ∧
      (∀ p ∈ L, (p.1 != pid && p.2.fighter.isSome && fov p.2.x p.2.y) = true →
        (closestScan px py pid fov L (best0, s0)).2 ≤
          (p.2.x - px) ^ 2 + (p.2.y - py) ^ 2) ∧
      (closestScan px py pid fov L (best0, s0) = (best0, s0) ∨
        ∃ m o, (m, o) ∈ L ∧
          (m != pid && o.fighter.isSome && fov o.x o.y) = true ∧
          closestScan px py pid fov L (best0, s0) =
            (some m, (o.x - px) ^ 2 + (o.y - py) ^ 2) ∧
          (o.x - px) ^ 2 + (o.y - py) ^ 2 < s0)
  | [], best0, s0 => ⟨le_refl _, by simp, Or.inl rfl⟩
  | (i, o) :: rest, best0, s0 => by
    simp only [closestScan]
    by_cases hc : (i != pid && o.fighter.isSome && fov o.x o.y) = true
    · rw [if_pos hc]
      by_cases hd : (o.x - px) ^ 2 + (o.y - py) ^ 2 < s0
      · rw [if_pos hd]
        obtain ⟨ih1, ih2, ih3⟩ := closestScan_spec px py pid fov rest (some i)
          ((o.x - px) ^ 2 + (o.y - py) ^ 2)
        refine ⟨le_trans ih1 (le_of_lt hd), ?_, ?_⟩
        · intro p hp hcp
          rcases List.mem_cons.mp hp with hp | hp
          · rw [hp]
            exact ih1
          · exact ih2 p hp hcp
        · rcases ih3 with h | ⟨m, o2, hmem, hcond2, heq, hlt⟩
          · exact Or.inr ⟨i, o, List.mem_cons_self _ _, hc, h, hd⟩
          · exact Or.inr ⟨m, o2, List.mem_cons_of_mem _ hmem, hcond2, heq,
              lt_trans hlt hd⟩
      · rw [if_neg hd]
        obtain ⟨ih1, ih2, ih3⟩ := closestScan_spec px py pid fov rest best0 s0
        push_neg at hd
        refine ⟨ih1, ?_, ?_⟩
        · intro p hp hcp
          rcases List.mem_cons.mp hp with hp | hp
          · rw [hp]
            exact le_trans ih1 hd
          · exact ih2 p hp hcp
        · rcases ih3 with h | ⟨m, o2, hmem, hcond2, heq, hlt⟩
          · exact Or.inl h
          · exact Or.inr ⟨m, o2, List.mem_cons_of_mem _ hmem, hcond2, heq, hlt⟩
    · rw [if_neg hc]
      obtain ⟨ih1, ih2, ih3⟩ := closestScan_spec px py pid fov rest best0 s0
      refine ⟨ih1, ?_, ?_⟩
      · intro p hp hcp
        rcases List.mem_cons.mp hp with hp | hp
        · rw [hp] at hcp
          exact absurd hcp hc
        · exact ih2 p hp hcp
      · rcases ih3 with h | ⟨m, o2, hmem, hcond2, heq, hlt⟩
        · exact Or.inl h
        · exact Or.inr ⟨m, o2, List.mem_cons_of_mem _ hmem, hcond2, heq, hlt⟩

/-- A lightning target candidate: a non-player Fighter-carrying entity inside
the visibility oracle. -/
def lightningCand (g : Game) (fov : Int → Int → Bool) (j : Nat) : Prop :=
  j ≠ g.player_id ∧ (getObj g j).fighter.isSome = true ∧
    fov (getObj g j).x (getObj g j).y = true

/-- Squared Euclidean distance from the player to entity j. -/
def playerDistSq (g : Game) (j : Nat) : Int :=
  distanceSq (getObj g g.player_id) (getObj g j)

theorem getObj_eq_getElem (g : Game) (j : Nat) (h : j < g.objects.length) :
    g.objects[j]? = some (getObj g j) := by
  simp [getObj, List.getD, List.getElem?_eq_getElem h]

/-- C9 (amended): cast_lightning is Cancelled (message only) exactly when no
non-player Fighter entity in view has squared distance below
(LIGHTNING_RANGE + 1)^2 — strictly beyond LIGHTNING_RANGE itself is still in
reach, see c9_range_counterexample — and otherwise strikes a candidate of
minimal Euclidean distance with the fixed damage. -/
theorem c9_lightning_amended (g : Game) (fov : Int → Int → Bool) :
    (closest_monster LIGHTNING_RANGE g fov = none →
      cast_lightning g fov =
        (g.message "No enemy is close enough to strike." Color.red,
         UseResult.Cancelled) ∧
      (∀ j, j < g.objects.length → lightningCand g fov j →
        (LIGHTNING_RANGE + 1) ^ 2 ≤ playerDistSq g j)) ∧
    (∀ m, closest_monster LIGHTNING_RANGE g fov = some m →
      m < g.objects.length ∧ lightningCand g fov m ∧
      playerDistSq g m < (LIGHTNING_RANGE + 1) ^ 2 ∧
      (∀ j, j < g.objects.length → lightningCand g fov j →
        playerDistSq g m ≤ playerDistSq g j) ∧
      cast_lightning g fov =
        (take_damage m LIGHTNING_DAMAGE
          (g.message ("A lightning bolt strikes the " ++ (getObj g m).name ++
            " with a loud thunder!\n The damage is " ++
            toString LIGHTNING_DAMAGE ++ " hit points.") Color.lightBlue),
         UseResult.Used)) := by
  have hkey := closestScan_spec (getObj g g.player_id).x (getObj g g.player_id).y
    g.player_id fov (withIdx 0 g.objects) none ((LIGHTNING_RANGE + 1) ^ 2)
  constructor
  · intro hnone
    have hn2 : (closestScan (getObj g g.player_id).x (getObj g g.player_id).y
        g.player_id fov (withIdx 0 g.objects)
        (none, (LIGHTNING_RANGE + 1) ^ 2)).1 = none := hnone
    constructor
    · simp only [cast_lightning, hnone]
    · intro j hj hcand
      have hmem : (j, getObj g j) ∈ withIdx 0 g.objects := by
        have := withIdx_mem g.objects 0 j (getObj g j) (getObj_eq_getElem g j hj)
        simpa using this
      have hcb : ((j : Nat) != g.player_id && (getObj g j).fighter.isSome &&
          fov (getObj g j).x (getObj g j).y) = true := by
        obtain ⟨h1, h2, h3⟩ := hcand
        simp [h2, h3, bne_iff_ne, h1]
      have hle := hkey.2.1 (j, getObj g j) hmem hcb
      rcases hkey.2.2 with hshape | ⟨m, o, _, _, heq, _⟩
      · rw [hshape] at hle
        simpa [playerDistSq, distanceSq] using hle
      · rw [heq] at hn2
        exact Option.noConfusion hn2
  · intro m hm
    have hm2 : (closestScan (getObj g g.player_id).x (getObj g g.player_id).y
        g.player_id fov (withIdx 0 g.objects)
        (none, (LIGHTNING_RANGE + 1) ^ 2)).1 = some m := hm
    rcases hkey.2.2 with hshape | ⟨m2, o, hmem, hcond, heq, hlt⟩
    · rw [hshape] at hm2
      exact Option.noConfusion hm2
    · rw [heq] at hm2
      have hmm : m2 = m := by simpa using hm2
      subst hmm
      obtain ⟨k, hk, hmk⟩ := mem_withIdx g.objects 0 m2 o hmem
      have hmk2 : m2 = k := by omega
      subst hmk2
      have hklen : m2 < g.objects.length := by
        by_contra hcon
        rw [List.getElem?_eq_none (by omega)] at hk
        exact Option.noConfusion hk
      have ho : getObj g m2 = o := by
        rw [getObj_eq_getElem g m2 hklen] at hk
        exact Option.some.injEq _ _ ▸ hk
      subst ho
      have hcand : lightningCand g fov m2 := by
        simp only [Bool.and_eq_true, bne_iff_ne] at hcond
        exact ⟨hcond.1.1, hcond.1.2, hcond.2⟩
      refine ⟨hklen, hcand, ?_, ?_, ?_⟩
      · simpa [playerDistSq, distanceSq] using hlt
      · intro j hj hcandj
        have hmemj : (j, getObj g j) ∈ withIdx 0 g.objects := by
          have := withIdx_mem g.objects 0 j (getObj g j) (getObj_eq_getElem g j hj)
          simpa using this
        have hcbj : ((j : Nat) != g.player_id && (getObj g j).fighter.isSome &&
            fov (getObj g j).x (getObj g j).y) = true := by
          obtain ⟨h1, h2, h3⟩ := hcandj
          simp [h2, h3, bne_iff_ne, h1]
        have hle := hkey.2.1 (j, getObj g j) hmemj hcbj
        rw [heq] at hle
        simpa [playerDistSq, distanceSq] using hle
      · simp only [cast_lightning, hm]

def c9Player : Object :=
  { Object.new 0 0 '@' "player" Color.white true with
    level := 1,
    fighter := some { base_max_hp := 100, hp := 100, base_defense := 1,
                      base_power := 2, xp := 0,
                      death := some DeathCallback.Player } }

def c9Orc : Object :=
  { Object.new 1 5 'o' "orc" Color.desaturatedGreen true with
    fighter := some { base_max_hp := 20, hp := 20, base_defense := 0,
                      base_power := 4, xp := 35,
                      death := some DeathCallback.Monster } }

def c9Game : Game :=
  { emptyGame with objects := [c9Player, c9Orc] }

def c9Empty : Game :=
  { emptyGame with objects := [c9Player] }

/-- C9 counterexample: the only candidate stands at squared distance 26 > 25 =
LIGHTNING_RANGE^2, i.e. strictly beyond the fixed lightning range of 5, yet
the scroll strikes it (Used, not Cancelled): closest_monster accepts any
distance strictly below LIGHTNING_RANGE + 1. -/
theorem c9_range_counterexample :
    c9Game.objects.length = 2 ∧
    c9Game.player_id = 0 ∧
    playerDistSq c9Game 1 = 26 ∧
    LIGHTNING_RANGE ^ 2 = 25 ∧
    (cast_lightning c9Game (fun _ _ => true)).2 = UseResult.Used := by
  refine ⟨rfl, rfl, by decide, by decide, by decide⟩

/-- Witness for C9: lightning cancels with no candidate in the arena, and
strikes the lone orc when one is in view and in reach. -/
theorem c9_lightning_amended_witness :
    (cast_lightning c9Empty (fun _ _ => true) =
      (c9Empty.message "No enemy is close enough to strike." Color.red,
       UseResult.Cancelled)) ∧
    playerDistSq c9Game 1 < (LIGHTNING_RANGE + 1) ^ 2 ∧
    (cast_lightning c9Game (fun _ _ => true) =
      (take_damage 1 LIGHTNING_DAMAGE
        (c9Game.message ("A lightning bolt strikes the " ++
          (getObj c9Game 1).name ++ " with a loud thunder!\n The damage is " ++
          toString LIGHTNING_DAMAGE ++ " hit points.") Color.lightBlue),
       UseResult.Used)) :=
  ⟨((c9_lightning_amended c9Empty (fun _ _ => true)).1 (by decide)).1,
   ((c9_lightning_amended c9Game (fun _ _ => true)).2 1 (by decide)).2.2.1,
   ((c9_lightning_amended c9Game (fun _ _ => true)).2 1 (by decide)).2.2.2.2⟩

/-- Unrolling the carry-over fold of rebuild. -/
theorem rebuild_fold (objects : List Object) :
    ∀ (inv : List Nat) (accO : List Object) (accI : List Nat),
      inv.foldl (fun acc item_id =>
        (acc.1 ++ [objects.getD item_id defaultObject], acc.2 ++ [acc.1.length]))
        (accO, accI) =
      (accO ++ inv.map (fun i => objects.getD i defaultObject),
       accI ++ (List.range inv.length).map (fun k => k + accO.length))
  | [], accO, accI => by simp
  | a :: inv, accO, accI => by
    simp only [List.foldl_cons]
    rw [rebuild_fold objects inv (accO ++ [objects.getD a defaultObject])
      (accI ++ [accO.length])]
    rw [Prod.mk.injEq]
    constructor
    · simp
    · simp only [List.length_cons]
      rw [List.range_succ_eq_map]
      simp only [List.map_cons, List.map_map, List.length_append,
        List.length_singleton, List.append_assoc, List.singleton_append,
        List.cons_append]
      congr 2
      · omega
      · apply List.map_congr_left
        intro k _
        simp [Function.comp]
        omega

/-- The rebuild at the top of make_map: new player id 0, the arena holds the
clone of entry 0 followed by the inventory clones, and the inventory is
remapped to 1..n. -/
theorem rebuild_spec (objects : List Object) (inventory : List Nat) :
    rebuild objects inventory =
      (0, objects.getD 0 defaultObject ::
            inventory.map (fun i => objects.getD i defaultObject),
        (List.range inventory.length).map (fun k => k + 1)) := by
  simp only [rebuild]
  rw [rebuild_fold objects inventory [objects.getD 0 defaultObject] []]
  simp

/-- The room loop only repositions entry pid (once, at the first accepted
room) and appends freshly generated content after the incoming arena. -/
theorem roomsLoop_decomp (place : Rect → List Object → List Object) (pid : Nat) :
    ∀ (cands rooms : List Rect) (objs : List Object), pid < objs.length →
      (rooms = [] →
        (∃ gen, (roomsLoop place pid cands rooms objs).2 = objs ++ gen) ∨
        (∃ (c : Int × Int) (gen : List Object),
          (roomsLoop place pid cands rooms objs).2 =
          objs.set pid { objs.getD pid defaultObject with
            x := c.1, y := c.2 } ++ gen)) ∧
      (rooms ≠ [] →
        ∃ gen, (roomsLoop place pid cands rooms objs).2 = objs ++ gen)
  | [], rooms, objs, hp => by
    constructor
    · intro _
      exact Or.inl ⟨[], by simp [roomsLoop]⟩
    · intro _
      exact ⟨[], by simp [roomsLoop]⟩
  | r :: rest, rooms, objs, hp => by
    constructor
    · intro hrooms
      subst hrooms
      rw [roomsLoop]
      simp only [List.any_nil, List.isEmpty_nil, Bool.false_eq_true, if_false,
        if_true]
      have hset : (objs ++ place r objs).set pid
          { (objs ++ place r objs).getD pid defaultObject with
            x := r.center.1, y := r.center.2 } =
          objs.set pid { objs.getD pid defaultObject with
            x := r.center.1, y := r.center.2 } ++ place r objs := by
        have hg : (objs ++ place r objs).getD pid defaultObject =
            objs.getD pid defaultObject := by
          simp [List.getD, List.getElem?_append, hp]
        rw [hg, List.set_append_left _ _ hp]
      rw [hset]
      have hp2 : pid < (objs.set pid { objs.getD pid defaultObject with
          x := r.center.1, y := r.center.2 } ++ place r objs).length := by
        simp
        omega
      have hrec := (roomsLoop_decomp place pid rest ([] ++ [r]) _ hp2).2
        (by simp)
      obtain ⟨gen, hgen⟩ := hrec
      right
      refine ⟨r.center, place r objs ++ gen, ?_⟩
      rw [← List.append_assoc]
      simpa using hgen
    · intro hrooms
      rw [roomsLoop]
      by_cases hi : (rooms.any fun other => r.intersect other) = true
      · rw [if_pos hi]
        exact (roomsLoop_decomp place pid rest rooms objs hp).2 hrooms
      · rw [if_neg hi]
        have hie : rooms.isEmpty = false := by
          cases rooms with
          | nil => exact absurd rfl hrooms
          | cons a l => rfl
        rw [hie]
        simp only [Bool.false_eq_true, if_false]
        have hp2 : pid < (objs ++ place r objs).length := by
          simp
          omega
        have hrec := (roomsLoop_decomp place pid rest (rooms ++ [r]) _ hp2).2
          (by simp)
        obtain ⟨gen, hgen⟩ := hrec
        refine ⟨place r objs ++ gen, ?_⟩
        rw [← List.append_assoc]
        exact hgen

/-- C3 (amended): the rebuild clones the entity stored at index 0 (the source
overwrites player_id with 0 before reading objects[player_id], so it is entry
0 — the player in every reachable state — that is carried over) and the
current inventory entries, remapping player_id to 0 and the inventory to
1..n; the carried player keeps every stat except position, every inventory
clone is byte-identical, everything after the carried prefix is freshly
generated content ending in the stairs entity, and nothing else from the old
arena appears. -/
theorem c3_next_level_rebuild_amended
    (place : Rect → List Object → List Object) (cands : List Rect)
    (objects : List Object) (inventory : List Nat) :
    (make_map_model place cands objects inventory).player_id = 0 ∧
    (make_map_model place cands objects inventory).inventory =
      (List.range inventory.length).map (fun k => k + 1) ∧
    (make_map_model place cands objects inventory).stairs_id =
      (make_map_model place cands objects inventory).objects.length - 1 ∧
    (((make_map_model place cands objects inventory).objects.getD
        (make_map_model place cands objects inventory).stairs_id
        defaultObject).name = "stairs" ∧
     ((make_map_model place cands objects inventory).objects.getD
        (make_map_model place cands objects inventory).stairs_id
        defaultObject).always_visible = true) ∧
    (∃ (playerEntry : Object) (gen : List Object),
      (make_map_model place cands objects inventory).objects =
        (playerEntry :: inventory.map (fun i => objects.getD i defaultObject))
          ++ gen ∧
      playerEntry.fighter = (objects.getD 0 defaultObject).fighter ∧
      playerEntry.level = (objects.getD 0 defaultObject).level ∧
      playerEntry.name = (objects.getD 0 defaultObject).name ∧
      playerEntry.item = (objects.getD 0 defaultObject).item ∧
      playerEntry.equipment = (objects.getD 0 defaultObject).equipment) := by
  have hreb := rebuild_spec objects inventory
  have hdecomp := (roomsLoop_decomp place 0 cands []
    (objects.getD 0 defaultObject ::
      inventory.map (fun i => objects.getD i defaultObject)) (by simp)).1 rfl
  refine ⟨?_, ?_, ?_, ?_, ?_⟩
  · simp only [make_map_model, hreb]
  · simp only [make_map_model, hreb]
  · simp only [make_map_model, hreb]
    simp
  · simp only [make_map_model, hreb]
    constructor
    · simp [List.getD, List.getElem?_concat_length, stairsObject, Object.new]
    · simp [List.getD, List.getElem?_concat_length, stairsObject, Object.new]
  · rcases hdecomp with ⟨gen, hgen⟩ | ⟨c, gen, hgen⟩
    · simp only [make_map_model, hreb]
      simp only [hgen, List.cons_append, List.append_assoc]
      exact ⟨objects.getD 0 defaultObject, gen ++ [stairsObject _],
        rfl, rfl, rfl, rfl, rfl, rfl⟩
    · simp only [make_map_model, hreb]
      simp only [hgen, List.set_cons_zero, List.getD_cons_zero,
        List.cons_append, List.append_assoc]
      exact ⟨{ objects.getD 0 defaultObject with x := c.1, y := c.2 },
        gen ++ [stairsObject _], rfl, rfl, rfl, rfl, rfl, rfl⟩

def c3Objects : List Object :=
  [{ Object.new 4 4 'o' "orc" Color.desaturatedGreen true with
     fighter := some { base_max_hp := 20, hp := 20, base_defense := 0,
                       base_power := 4, xp := 35,
                       death := some DeathCallback.Monster } },
   { Object.new 0 0 '@' "player" Color.white true with
     level := 1,
     fighter := some { base_max_hp := 100, hp := 100, base_defense := 1,
                       base_power := 2, xp := 0,
                       death := some DeathCallback.Player } }]

/-- C3 counterexample: in a state whose player is stored at index 1 (so
player_id = 1), make_map overwrites player_id with 0 before cloning
objects[player_id], so the rebuilt arena clones the orc at index 0 and
contains no entity named "player" at all — the claimed for-every-game-state
carry-over of the player fails. -/
theorem c3_rebuild_counterexample :
    (c3Objects.getD 1 defaultObject).name = "player" ∧
    (c3Objects.getD 0 defaultObject).name = "orc" ∧
    ((make_map_model (fun _ _ => []) [Rect.new 1 1 6 6] c3Objects []).objects.all
      (fun o => o.name != "player")) = true := by
  refine ⟨rfl, rfl, by decide⟩

end Roguelike
